import Mathlib

/-! # kubectl-gadget trace orchestration: a shallow embedding

Embedding of `cmd/kubectl-gadget/utils/trace.go`.

* Go `error` values are `Option GoError` (`none` is `nil`); a `(T, error)`
  result is `Except GoError T`.
* The cluster API server, the process-wide client configuration and the
  standard error stream are external to the program. They are made explicit:
  `Env` holds what client setup and the read-only listings answer, `World` is
  the state threaded through every call (stored replicas, the requests issued
  so far, the outcome planned for the coming requests, standard error).
* Go maps whose iteration order is irrelevant to a function are association
  lists.
-/

namespace TraceUtils

/-! ## Go errors and formatted output -/

mutual
/-- A Go error value: built by `errors.New(msg)` or by
`fmt.Errorf(format, args...)`. The format string and its operands are kept as
data, so that wrapping (`%w`) stays observable. -/
inductive GoError where
  | new (msg : String)
  | errorf (format : String) (args : List GoArg)
/-- An operand of a format string: a string, or an error value (possibly
`nil`). -/
inductive GoArg where
  | str (s : String)
  | err (e : Option GoError)
end

/-- One call of `fmt.Fprintf`: the format string and its operands. -/
structure Printf where
  format : String
  args : List GoArg

/-! ## Constants -/

def GADGET_OPERATION : String := "gadget.kinvolk.io/operation"

def GLOBAL_TRACE_ID : String := "global-trace-id"

/-! ## Data model -/

/-- Modelled from the spec: `gadgetv1alpha1.ContainerFilter`, declared in
`pkg/api/v1alpha1` (not part of the sources at hand); the fields are those
`CreateTrace` fills in. -/
structure ContainerFilter where
  Namespace : String
  Podname : String
  ContainerName : String
  Labels : List (String × String)
  deriving DecidableEq, Repr

/-- Modelled from the spec: the part of `metav1.ObjectMeta` used by the
program. -/
structure ObjectMeta where
  Name : String
  GenerateName : String
  Namespace : String
  Annotations : List (String × String)
  Labels : List (String × String)
  deriving DecidableEq, Repr

/-- Modelled from the spec: `gadgetv1alpha1.TraceSpec` (section 6 of the
specification, `spec:`). `Filter` is a pointer in Go, `none` is `nil`. -/
structure TraceSpec where
  Node : String
  Gadget : String
  Filter : Option ContainerFilter
  RunMode : String
  OutputMode : String
  Output : String
  deriving DecidableEq, Repr

/-- Modelled from the spec: `gadgetv1alpha1.TraceStatus` (section 6 of the
specification, `status:`). -/
structure TraceStatus where
  State : String
  Output : String
  OperationError : String
  OperationWarning : String
  deriving DecidableEq, Repr

/-- Modelled from the spec: `gadgetv1alpha1.Trace`, one replica. -/
structure Trace where
  ObjectMeta : ObjectMeta
  Spec : TraceSpec
  Status : TraceStatus
  deriving DecidableEq, Repr

/-- Modelled from the spec: `CommonFlags`, declared in another file of the
package; the fields are those read by `trace.go`. -/
structure CommonFlags where
  Node : String
  Namespace : String
  Podname : String
  Containername : String
  Labels : List (String × String)
  OutputMode : String
  Verbose : Bool
  deriving DecidableEq, Repr

/-- The Go struct `TraceConfig`. -/
structure TraceConfig where
  GadgetName : String
  Operation : String
  TraceOutputMode : String
  TraceOutputState : String
  TraceOutput : String
  CommonFlags : CommonFlags
  deriving DecidableEq, Repr

/-- A cluster node, as returned by `client.CoreV1().Nodes().List`; only its
name is read. -/
structure Node where
  Name : String
  deriving DecidableEq, Repr

/-- The local types `Annotations`, `ObjectMeta` and `JSONMergePatch` of
`updateTraceOperation`, before `json.Marshal`: the annotations placed under
`metadata`. -/
structure JSONMergePatch where
  Annotations : List (String × String)
  deriving DecidableEq, Repr

/-! ## Watch notifications -/

/-- The event types of `k8s.io/apimachinery/pkg/watch`. -/
inductive EventType where
  | Added
  | Modified
  | Deleted
  | Bookmark
  | Error
  deriving DecidableEq, Repr

/-- The object carried by a notification. Its unstructured content is
represented by what `mapToTrace` makes of it (the JSON round trip into a
`Trace`, which may fail). -/
structure Unstructured where
  content : Except GoError Trace

/-- A `watch.Event`. -/
structure Event where
  type : EventType
  object : Unstructured

/-- What a watch on one replica delivers: the notifications received on the
result channel before the wait ends, in order, and how the channel ends after
them, closed by the server (`closed = true`) or silent until the context
deadline (`closed = false`). -/
structure Watcher where
  events : List Event
  closed : Bool

/-! ## The environment -/

/-- A request received by the API server. -/
inductive Request where
  | post (ns resource : String) (body : Trace)
  | delete (ns resource labelSelector : String)
  | get (ns resource labelSelector : String)
  | patch (ns resource name : String) (body : JSONMergePatch)
  | watch (ns name : String)

/-- The answers of client setup and of the read-only calls, fixed for the
duration of a command: the error (if any) of `kubeRestConfig`, of
`restclient.UnversionedRESTClientFor`, of `dynamic.NewForConfig`, of
`k8sutil.NewClientsetFromConfigFlags`, the node listing, the watcher obtained
for a replica name, and what `ExecPod` does for a node name and a command:
`some r` when it returns `r`, `none` when it streams without ever
returning. -/
structure Env where
  kubeRestConfig : Option GoError
  UnversionedRESTClientFor : Option GoError
  NewForConfig : Option GoError
  NewClientsetFromConfigFlags : Option GoError
  NodesList : Except GoError (List Node)
  Watch : String → Except GoError Watcher
  ExecPod : String → String → Option (Option GoError) := fun _ _ => some none

/-- The mutable state: the replicas stored by the API server, the requests it
has received (oldest first), the outcome planned for the coming requests of the
REST client (`some e`: the next request is rejected with `e` and has no effect;
`none`, or an exhausted plan: it is served), and what was written to standard
error and to standard output. Opening a watch is logged among the requests,
its answer is `Env.Watch`. -/
structure World where
  traces : List Trace
  requests : List Request
  faults : List (Option GoError)
  stderr : List Printf
  stdout : List Printf := []

/-- The server receives request `r`: it is logged and the head of the fault
plan decides its outcome. -/
def World.serve (w : World) (r : Request) : Option GoError × World :=
  (w.faults.headD none, { w with requests := w.requests ++ [r], faults := w.faults.tail })

/-- Label selection on the server, for selectors made of one equality term
(`key=value`), the only kind `deleteTraces` and `getTraceListFromID` build. -/
def selects (labelSelector : String) (t : Trace) : Bool :=
  t.ObjectMeta.Labels.any (fun kv => kv.1 ++ "=" ++ kv.2 == labelSelector)

/-- `Post().Namespace(ns).Resource(resource).Body(body).Do().Error()`: a
served creation stores the object. -/
def World.Post (w : World) (ns resource : String) (body : Trace) : Option GoError × World :=
  match w.serve (.post ns resource body) with
  | (some err, w) => (some err, w)
  | (none, w) => (none, { w with traces := w.traces ++ [body] })

/-- `Delete().Namespace(ns).Resource(resource).VersionedParams(selector)`: a
served collection deletion removes every stored replica of the namespace that
the selector selects. -/
def World.Delete (w : World) (ns resource labelSelector : String) : Option GoError × World :=
  match w.serve (.delete ns resource labelSelector) with
  | (some err, w) => (some err, w)
  | (none, w) =>
    (none, { w with traces :=
      w.traces.filter (fun t => !(t.ObjectMeta.Namespace == ns && selects labelSelector t)) })

/-- `Get().Namespace(ns).Resource(resource).VersionedParams(selector)`: a
served listing returns the stored replicas of the namespace that the selector
selects. -/
def World.Get (w : World) (ns resource labelSelector : String) :
    Except GoError (List Trace) × World :=
  match w.serve (.get ns resource labelSelector) with
  | (some err, w) => (.error err, w)
  | (none, w) =>
    (.ok (w.traces.filter (fun t => t.ObjectMeta.Namespace == ns && selects labelSelector t)), w)

/-- Merge of patch annotations into the annotations of an object: a patched
key replaces the former entry. -/
def mergeAnnotations (old patch : List (String × String)) : List (String × String) :=
  patch.foldl (fun acc kv => (acc.filter (fun e => e.1 != kv.1)) ++ [kv]) old

/-- The error answered for a patch naming no stored replica. -/
def errNotFound (name : String) : GoError :=
  .errorf "traces.gadget.kinvolk.io %q not found" [.str name]

/-- `Patch(types.MergePatchType).Namespace(ns).Resource(resource).Name(name).Body(body)`:
a served patch merges the annotations into the named replica; it fails when no
such replica is stored. -/
def World.Patch (w : World) (ns resource name : String) (body : JSONMergePatch) :
    Option GoError × World :=
  match w.serve (.patch ns resource name body) with
  | (some err, w) => (some err, w)
  | (none, w) =>
    if w.traces.any (fun t => t.ObjectMeta.Namespace == ns && t.ObjectMeta.Name == name) then
      (none, { w with traces := w.traces.map (fun t =>
        if t.ObjectMeta.Namespace == ns && t.ObjectMeta.Name == name then
          { t with ObjectMeta :=
              { t.ObjectMeta with
                Annotations := mergeAnnotations t.ObjectMeta.Annotations body.Annotations } }
        else t) })
    else (some (errNotFound name), w)

/-! ## The program -/

/-- The alphabet of `randomTraceID`. -/
def allowedCharacters : String :=
  "0123456789abcdefghijklmnopqrstuvwxyzABCDEFGHIJKLMNOPQRSTUVWXYZ"

/-- `randomTraceID`: sixteen characters of the alphabet; `rand i` is the value
drawn by the `i`-th call of `rand.Int31n`, reduced to the range of the
alphabet. -/
def randomTraceID (rand : Nat → Nat) : String :=
  String.mk ((List.range 16).map
    (fun i => allowedCharacters.toList.getD (rand i % allowedCharacters.length) '0'))

/-- `deleteTraces`: one collection deletion for the selector
`global-trace-id=<traceID>` in namespace `gadget`; a failure is printed to
standard error and nothing is returned. -/
def deleteTraces (w : World) (traceID : String) : World :=
  match w.Delete "gadget" "traces" (GLOBAL_TRACE_ID ++ "=" ++ traceID) with
  | (some err, w) =>
    { w with stderr := w.stderr ++ [⟨"Error deleting traces: %q", [.err (some err)]⟩] }
  | (none, w) => w

/-- `makeRestConfig`, reduced to its error result. -/
def makeRestConfig (env : Env) : Option GoError :=
  match env.kubeRestConfig with
  | some err => some (.errorf "Error while getting rest config: %w" [.err (some err)])
  | none => none

/-- `getRestClient`, reduced to its error result (the client handle carries no
data here: requests go to the `World`). -/
def getRestClient (env : Env) : Option GoError :=
  match makeRestConfig env with
  | some err => some err
  | none =>
    match env.UnversionedRESTClientFor with
    | some err => some (.errorf "Error setting up trace REST client: %w" [.err (some err)])
    | none => none

/-- `getDynamicClient`, reduced to its error result. -/
def getDynamicClient (env : Env) : Option GoError :=
  match makeRestConfig env with
  | some err => some err
  | none =>
    match env.NewForConfig with
    | some err => some err
    | none => none

/-- The `for _, node := range nodes.Items` loop of `createTraces`. The state of
the loop is the trace being posted (its `Spec.Node` is overwritten when no node
was configured), the flag `nodeFound` and the world. An error result is the
early `return` of the loop body. -/
def createTracesLoop (traceNode : String) :
    List Node → Trace → Bool → World → Except GoError Bool × World
  | [], _, nodeFound, w => (.ok nodeFound, w)
  | node :: rest, trace, nodeFound, w =>
    if traceNode ≠ "" ∧ node.Name ≠ traceNode then
      createTracesLoop traceNode rest trace nodeFound w
    else
      let trace : Trace :=
        if traceNode = "" then { trace with Spec := { trace.Spec with Node := node.Name } }
        else trace
      match w.Post trace.ObjectMeta.Namespace "traces" trace with
      | (some err, w) =>
        let w :=
          match trace.ObjectMeta.Labels.lookup GLOBAL_TRACE_ID with
          | some traceID => deleteTraces w traceID
          | none => w
        (.error (.errorf "Error creating trace on node %q: %w" [.str node.Name, .err (some err)]), w)
      | (none, w) => createTracesLoop traceNode rest trace true w

/-- `createTraces`. -/
def createTraces (env : Env) (trace : Trace) (w : World) : Option GoError × World :=
  match env.NewClientsetFromConfigFlags with
  | some err => (some (.errorf "Error setting up Kubernetes client: %w" [.err (some err)]), w)
  | none =>
    match env.NodesList with
    | .error err => (some (.errorf "Error listing nodes: %w" [.err (some err)]), w)
    | .ok nodes =>
      match getRestClient env with
      | some err =>
        (some (.errorf "Error setting up trace REST client: %w" [.err (some err)]), w)
      | none =>
        let traceNode := trace.Spec.Node
        match createTracesLoop traceNode nodes trace false w with
        | (.error err, w) => (some err, w)
        | (.ok nodeFound, w) =>
          if traceNode ≠ "" ∧ nodeFound = false then
            (some (.errorf "Invalid filter: Node %q does not exist" [.str traceNode]), w)
          else (none, w)

/-- The trace object built by `CreateTrace` for a configuration and a drawn
trace ID, before it is handed to `createTraces`. -/
def newTrace (config : TraceConfig) (traceID : String) : Trace :=
  let filter : Option ContainerFilter :=
    if config.CommonFlags.Namespace ≠ "" ∨ config.CommonFlags.Podname ≠ "" ∨
        config.CommonFlags.Containername ≠ "" ∨ config.CommonFlags.Labels.length > 0 then
      some
        { Namespace := config.CommonFlags.Namespace
          Podname := config.CommonFlags.Podname
          ContainerName := config.CommonFlags.Containername
          Labels := config.CommonFlags.Labels }
    else none
  { ObjectMeta :=
      { Name := ""
        GenerateName := config.GadgetName ++ "-"
        Namespace := "gadget"
        Annotations := [(GADGET_OPERATION, config.Operation)]
        Labels :=
          [ (GLOBAL_TRACE_ID, traceID),
            ("gadgetName", config.GadgetName),
            ("nodeName", config.CommonFlags.Node),
            ("namespace", config.CommonFlags.Namespace),
            ("podName", config.CommonFlags.Podname),
            ("containerName", config.CommonFlags.Containername),
            ("outputMode", config.TraceOutputMode) ] }
    Spec :=
      { Node := config.CommonFlags.Node
        Gadget := config.GadgetName
        Filter := filter
        RunMode := "Manual"
        OutputMode := config.TraceOutputMode
        Output := config.TraceOutput }
    Status := { State := "", Output := "", OperationError := "", OperationWarning := "" } }

/-- `CreateTrace`; `rand` stands for the draws of the random generator. -/
def CreateTrace (env : Env) (rand : Nat → Nat) (config : TraceConfig) (w : World) :
    Except GoError String × World :=
  let traceID := randomTraceID rand
  match createTraces env (newTrace config traceID) w with
  | (some err, w) => (.error err, w)
  | (none, w) => (.ok traceID, w)

/-- `updateTraceOperation`: the merge patch holds the operation annotation
only. (`json.Marshal` cannot fail on this value, its error branch is dead.) -/
def updateTraceOperation (env : Env) (trace : Trace) (operation : String) (w : World) :
    Option GoError × World :=
  match getRestClient env with
  | some err => (some err, w)
  | none =>
    let patch : JSONMergePatch := { Annotations := [(GADGET_OPERATION, operation)] }
    w.Patch trace.ObjectMeta.Namespace "traces" trace.ObjectMeta.Name patch

/-- `getTraceListFromOptions`; the options are reduced to their label
selector. -/
def getTraceListFromOptions (env : Env) (labelSelector : String) (w : World) :
    Except GoError (List Trace) × World :=
  match getRestClient env with
  | some err => (.error err, w)
  | none => w.Get "gadget" "traces" labelSelector

/-- `getTraceListFromID`. -/
def getTraceListFromID (env : Env) (traceID : String) (w : World) :
    Except GoError (List Trace) × World :=
  match getTraceListFromOptions env (GLOBAL_TRACE_ID ++ "=" ++ traceID) w with
  | (.error err, w) =>
    (.error (.errorf "Error getting traces from traceID %q: %w" [.str traceID, .err (some err)]), w)
  | (.ok traces, w) =>
    if traces.length = 0 then
      (.error (.errorf "No traces found for traceID %q!" [.str traceID]), w)
    else (.ok traces, w)

/-- The `for _, trace := range traces.Items` loop of `SetTraceOperation`; `err`
is the accumulated error. -/
def SetTraceOperationLoop (env : Env) (traceID operation : String) :
    List Trace → Option GoError → World → Option GoError × World
  | [], err, w => (err, w)
  | trace :: rest, err, w =>
    match updateTraceOperation env trace operation w with
    | (some localError, w) =>
      SetTraceOperationLoop env traceID operation rest
        (some (.errorf "%w\nError updating trace operation for %s: %v"
          [.err err, .str traceID, .err (some localError)])) w
    | (none, w) => SetTraceOperationLoop env traceID operation rest err w

/-- `SetTraceOperation`. -/
def SetTraceOperation (env : Env) (traceID operation : String) (w : World) :
    Option GoError × World :=
  match getTraceListFromID env traceID w with
  | (.error err, w) => (some err, w)
  | (.ok traces, w) => SetTraceOperationLoop env traceID operation traces none w

/-- `watch.NewEmptyWatch()`: no notification, channel closed. -/
def NewEmptyWatch : Watcher := { events := [], closed := true }

/-- `watchTrace`: the watcher scoped to the replica named `name`. -/
def watchTrace (env : Env) (name : String) (w : World) : (Watcher × Option GoError) × World :=
  match getDynamicClient env with
  | some err => ((NewEmptyWatch, some err), w)
  | none =>
    let w := { w with requests := w.requests ++ [.watch "gadget" name] }
    match env.Watch name with
    | .error err => ((NewEmptyWatch, some err), w)
    | .ok watcher => ((watcher, none), w)

/-- `mapToTrace`. -/
def mapToTrace (u : Unstructured) : Except GoError Trace := u.content

/-- `watchtools.ErrWatchClosed`. -/
def ErrWatchClosed : GoError := .new "watch closed before UntilWithoutRetry timeout"

/-- `wait.ErrWaitTimeout`. -/
def ErrWaitTimeout : GoError := .new "timed out waiting for the condition"

/-- The receive loop of the library function `watchtools.UntilWithoutRetry`
(package `k8s.io/client-go/tools/watch`), for one condition: every
notification is handed to the condition; an error of the condition ends the
wait with that error, `done` ends it successfully with that notification,
otherwise the next notification is awaited; when nothing more arrives the wait
fails with `ErrWatchClosed` or `ErrWaitTimeout`. -/
def UntilWithoutRetryLoop (closed : Bool)
    (condition : Event → World → (Bool × Option GoError) × World) :
    List Event → World → Except GoError Event × World
  | [], w => (.error (if closed then ErrWatchClosed else ErrWaitTimeout), w)
  | event :: rest, w =>
    match condition event w with
    | ((_, some err), w) => (.error err, w)
    | ((true, none), w) => (.ok event, w)
    | ((false, none), w) => UntilWithoutRetryLoop closed condition rest w

/-- `watchtools.UntilWithoutRetry(ctx, watcher, condition)`. -/
def UntilWithoutRetry (watcher : Watcher)
    (condition : Event → World → (Bool × Option GoError) × World) (w : World) :
    Except GoError Event × World :=
  UntilWithoutRetryLoop watcher.closed condition watcher.events w

/-- The condition closure that `waitForOutput` passes to `UntilWithoutRetry`.
`err` is the variable of the enclosing loop body that the closure captures,
`expectedState` the parameter of `waitForOutput`. -/
def waitCondition (err : Option GoError) (expectedState : String) (event : Event) (w : World) :
    (Bool × Option GoError) × World :=
  if event.type = .Error then ((false, err), w)
  else if event.type ≠ .Added ∧ event.type ≠ .Modified then ((false, none), w)
  else
    match mapToTrace event.object with
    | .error err => ((false, some err), w)
    | .ok trace =>
      if trace.Status.OperationWarning ≠ "" then
        ((false, none), { w with stderr := w.stderr ++ [⟨trace.Status.OperationWarning, []⟩] })
      else if trace.Status.OperationError ≠ "" then
        ((false, some (.new trace.Status.OperationError)), w)
      else if trace.Status.State ≠ expectedState then ((false, none), w)
      else ((true, none), w)

/-- The `for _, t := range traces.Items` loop of `waitForOutput`;
`returnedTraces` accumulates the snapshots. The closure handed to
`UntilWithoutRetry` refers to the variable `err` declared by
`watcher, err := watchTrace(t.Name)`; the closure runs after the check
`if err != nil`, hence while that variable holds `nil`. -/
def waitForOutputLoop (env : Env) (expectedState : String) :
    List Trace → List Trace → World → Except GoError (List Trace) × World
  | [], returnedTraces, w => (.ok returnedTraces, w)
  | t :: rest, returnedTraces, w =>
    match watchTrace env t.ObjectMeta.Name w with
    | ((_, some err), w) => (.error err, w)
    | ((watcher, none), w) =>
      let err : Option GoError := none
      match UntilWithoutRetry watcher (waitCondition err expectedState) w with
      | (.error err, w) => (.error err, w)
      | (.ok watchEvent, w) =>
        match mapToTrace watchEvent.object with
        | .error err => (.error err, w)
        | .ok trace => waitForOutputLoop env expectedState rest (returnedTraces ++ [trace]) w

/-- `waitForOutput`. -/
def waitForOutput (env : Env) (traceID expectedState : String) (w : World) :
    Except GoError (List Trace) × World :=
  match getTraceListFromID env traceID w with
  | (.error err, w) => (.error err, w)
  | (.ok traces, w) => waitForOutputLoop env expectedState traces [] w

/-- `DeleteTrace`. -/
def DeleteTrace (env : Env) (traceID : String) (w : World) : Option GoError × World :=
  match getRestClient env with
  | some err => (some err, w)
  | none => (none, deleteTraces w traceID)

/-- The loop of `getIdenticalValue`; the map is given by its entries in the
order in which `range` visits them, `value` is the local variable. -/
def getIdenticalValueLoop : List (String × String) → String → String
  | [], value => value
  | (_, v) :: rest, value =>
    if value = "" then getIdenticalValueLoop rest v
    else if value ≠ v then ""
    else getIdenticalValueLoop rest value

/-- `getIdenticalValue`. -/
def getIdenticalValue (m : List (String × String)) : String :=
  getIdenticalValueLoop m ""

/-- `printTraceFeedback`: the calls it makes to the print function `f`, in
order, each with its format and operands. The source ranges over the map
twice, once inside `getIdenticalValue` and once in its own loop, and Go fixes
no order for either range: `m` holds the entries of the map in the order in
which `getIdenticalValue` visits them (its length is `len(m)`), `perNode` holds
the entries of the same map in the order in which the final loop
`for node, msg := range m` visits them. -/
def printTraceFeedback (m perNode : List (String × String)) : List Printf :=
  if m.length > 1 then
    let value := getIdenticalValue m
    if value ≠ "" then [⟨"Failed to run the gadget on all nodes: %s", [.str value]⟩]
    else perNode.map
      (fun e => ⟨"Failed to run the gadget on node %q: %s", [.str e.1, .str e.2]⟩)
  else perNode.map
    (fun e => ⟨"Failed to run the gadget on node %q: %s", [.str e.1, .str e.2]⟩)

/-- A JSON document, as far as patches need it: strings and objects. -/
inductive Json where
  | str (s : String)
  | obj (fields : List (String × Json))

/-- `json.Marshal` on a `JSONMergePatch`, following the struct tags
`json:"metadata"` and `json:"annotations"`. (The entries of a map are written
in key order; the map built by `updateTraceOperation` has one entry.) -/
def jsonMarshal (patch : JSONMergePatch) : Json :=
  .obj [("metadata", .obj [("annotations",
    .obj (patch.Annotations.map (fun kv => (kv.1, Json.str kv.2))))])]

/-- `PrintTraceOutputFromStatus`; `customResultsDisplay` is the function of
the caller, given by the error it returns and what it prints to standard
output. -/
def PrintTraceOutputFromStatus (env : Env) (traceID expectedState : String)
    (customResultsDisplay : List Trace → Option GoError × List Printf) (w : World) :
    Option GoError × World :=
  match waitForOutput env traceID expectedState w with
  | (.error err, w) => (some err, w)
  | (.ok traces, w) =>
    ((customResultsDisplay traces).1,
      { w with stdout := w.stdout ++ (customResultsDisplay traces).2 })

/-- `RunTraceAndPrintStatusOutput`. The statement `defer DeleteTrace(traceID)`
is commented out in the source, so nothing follows
`PrintTraceOutputFromStatus`. -/
def RunTraceAndPrintStatusOutput (env : Env) (rand : Nat → Nat) (config : TraceConfig)
    (customResultsDisplay : List Trace → Option GoError × List Printf) (w : World) :
    Option GoError × World :=
  if config.TraceOutputMode = "Stream" then
    (some (.new "TraceOutputMode must not be Stream. Otherwise, call RunTraceAndPrintStream!"), w)
  else
    match CreateTrace env rand config w with
    | (.error err, w) => (some (.errorf "error creating trace: %w" [.err (some err)]), w)
    | (.ok traceID, w) =>
      PrintTraceOutputFromStatus env traceID config.TraceOutputState customResultsDisplay w

/-! ### The stream multiplexer -/

/-- Modelled from the spec: the constant `OutputModeJson`, declared in another
file of the package (not part of the sources at hand). -/
def OutputModeJson : String := "json"

/-- The arithmetic of `int32`: the value is reduced to the range
`[-2^31, 2^31)`. -/
def int32 (x : Int) : Int := (x + 2147483648) % 4294967296 - 2147483648

/-- The goroutine started for one replica, given by the messages it sends on
the channel `completion`: none while `ExecPod` does not return, otherwise one,
which tells whether `ExecPod` failed. (The lines it forwards to the output
streams are not modelled.) -/
def streamReader (env : Env) (nodeName ns name : String) (_index : Nat) : List Printf :=
  let cmd := "exec gadgettracermanager -call receive-stream -tracerid trace_" ++ ns ++ "_" ++ name
  match env.ExecPod nodeName cmd with
  | none => []
  | some none => [⟨"Trace completed on node %s\n", [.str nodeName]⟩]
  | some (some err) =>
    [⟨"Error running command on node %s: %v\n", [.str nodeName, .err (some err)]⟩]

/-- The `for index, i := range results.Items` loop of `genericStreamsDisplay`:
the counter `streamCount` and the goroutines started so far. -/
def genericStreamsDisplaySpawn (env : Env) (params : CommonFlags) :
    List Trace → Nat → Int → List (List Printf) → Int × List (List Printf)
  | [], _, streamCount, readers => (streamCount, readers)
  | i :: rest, index, streamCount, readers =>
    if params.Node ≠ "" ∧ i.Spec.Node ≠ params.Node then
      genericStreamsDisplaySpawn env params rest (index + 1) streamCount readers
    else
      genericStreamsDisplaySpawn env params rest (index + 1) (int32 (streamCount + 1))
        (readers ++ [streamReader env i.Spec.Node i.ObjectMeta.Namespace i.ObjectMeta.Name index])

/-- What the `select` statement of `genericStreamsDisplay` receives: a signal
on `sigs` or a message on `completion`. -/
inductive SelectEvent where
  | sigs
  | completion (msg : Printf)

/-- One step of a schedule: a signal is delivered to the process, or the
message that reader `reader` is blocked on sending is received. -/
inductive Arrival where
  | signal
  | completion (reader : Nat)

/-- The events received by `select` under a schedule; `readers` holds for every
reader the messages it has still to send. A step naming a reader that has
nothing to send delivers nothing. -/
def receive : List (List Printf) → List Arrival → List SelectEvent
  | _, [] => []
  | readers, .signal :: rest => .sigs :: receive readers rest
  | readers, .completion k :: rest =>
    match readers.getD k [] with
    | [] => receive readers rest
    | msg :: queue => .completion msg :: receive (readers.set k queue) rest

/-- The state in which the `for { select { ... } }` loop of
`genericStreamsDisplay` is left by the events it was given: `returned` is
`some r` when the function returned `r` and `none` when it is blocked in
`select`; `pending` are the events it did not consume. -/
structure Multiplexer where
  returned : Option (Option GoError)
  streamCount : Int
  pending : List SelectEvent
  world : World

/-- The `for { select { ... } }` loop of `genericStreamsDisplay`. -/
def genericStreamsDisplayLoop (params : CommonFlags) :
    List SelectEvent → Int → World → Multiplexer
  | [], streamCount, w => ⟨none, streamCount, [], w⟩
  | .sigs :: rest, streamCount, w =>
    let w : World :=
      if params.OutputMode ≠ OutputModeJson then
        { w with stdout := w.stdout ++ [⟨"\nTerminating...\n", []⟩] }
      else w
    ⟨some none, streamCount, rest, w⟩
  | .completion msg :: rest, streamCount, w =>
    let w : World := { w with stdout := w.stdout ++ [msg] }
    let streamCount := int32 (streamCount - 1)
    if streamCount = 0 then ⟨some none, streamCount, rest, w⟩
    else genericStreamsDisplayLoop params rest streamCount w

/-- `genericStreamsDisplay`, under a schedule of the arrivals. The result is
`none` when the function does not return. (The callback `transformLine`, the
verbosity and the post-processing of the lines read from the nodes only shape
the forwarded output and are left out.) -/
def genericStreamsDisplay (env : Env) (params : CommonFlags) (results : List Trace)
    (schedule : List Arrival) (w : World) : Option (Option GoError) × World :=
  match env.NewClientsetFromConfigFlags with
  | some err =>
    (some (some (.errorf "Error setting up Kubernetes client: %w" [.err (some err)])), w)
  | none =>
    let spawned := genericStreamsDisplaySpawn env params results 0 (int32 0) []
    let m := genericStreamsDisplayLoop params (receive spawned.2 schedule) spawned.1 w
    (m.returned, m.world)

/-- `PrintTraceOutputFromStream` (without the callback `transformLine`, see
`genericStreamsDisplay`). -/
def PrintTraceOutputFromStream (env : Env) (traceID expectedState : String)
    (params : CommonFlags) (schedule : List Arrival) (w : World) :
    Option (Option GoError) × World :=
  match waitForOutput env traceID expectedState w with
  | (.error err, w) => (some (some err), w)
  | (.ok traces, w) => genericStreamsDisplay env params traces schedule w

/-- `RunTraceAndPrintStream`. The deferred `DeleteTrace(traceID)` runs when
`PrintTraceOutputFromStream` returns; its result is dropped. -/
def RunTraceAndPrintStream (env : Env) (rand : Nat → Nat) (config : TraceConfig)
    (schedule : List Arrival) (w : World) : Option (Option GoError) × World :=
  if config.TraceOutputMode ≠ "Stream" then
    (some (some
      (.new "TraceOutputMode must be Stream. Otherwise, call RunTraceAndPrintStatusOutput!")), w)
  else
    match CreateTrace env rand config w with
    | (.error err, w) => (some (some (.errorf "error creating trace: %w" [.err (some err)])), w)
    | (.ok traceID, w) =>
      match PrintTraceOutputFromStream env traceID config.TraceOutputState config.CommonFlags
          schedule w with
      | (none, w) => (none, w)
      | (some r, w) => (some r, (DeleteTrace env traceID w).2)

/-- The loop of `labelsFromFilter`; the map is given by its entries in the
order in which `range` visits them, `labels` and `separator` are the local
variables. (`fmt.Sprintf("%s%s%s=%v", ...)` on strings is their
concatenation.) -/
def labelsFromFilterLoop : List (String × String) → String → String → String
  | [], labels, _ => labels
  | (labelName, labelValue) :: rest, labels, separator =>
    if labelValue = "" then labelsFromFilterLoop rest labels separator
    else labelsFromFilterLoop rest (labels ++ separator ++ labelName ++ "=" ++ labelValue) ","

/-- `labelsFromFilter`. -/
def labelsFromFilter (filter : List (String × String)) : String :=
  labelsFromFilterLoop filter "" ""

/-! ## Specification-side definitions -/

/-- The nodes a trace configured for `traceNode` is meant for: every listed
node when `traceNode` is empty, else the listed nodes of that name. -/
def targetNodes (traceNode : String) (nodes : List Node) : List Node :=
  nodes.filter (fun n => decide (traceNode = "" ∨ n.Name = traceNode))

/-- The replica `trace` with `Spec.Node` set to `node`. -/
def Trace.onNode (trace : Trace) (node : String) : Trace :=
  { trace with Spec := { trace.Spec with Node := node } }

/-- The errors of the individual patches gathered in the aggregate error of
`SetTraceOperation`, oldest first. -/
def aggregatedErrors : Option GoError → List GoError
  | some (.errorf "%w\nError updating trace operation for %s: %v"
      [.err previous, .str _, .err (some localError)]) =>
    aggregatedErrors previous ++ [localError]
  | _ => []

/-- The results of `updateTraceOperation` on each replica in turn. -/
def patchOutcomes (env : Env) (operation : String) : List Trace → World → List (Option GoError)
  | [], _ => []
  | trace :: rest, w =>
    (updateTraceOperation env trace operation w).1 ::
      patchOutcomes env operation rest (updateTraceOperation env trace operation w).2

/-- Waiting on the replicas of a list one after the other, each wait being the
one `waitForOutput` performs on a single replica: the snapshots obtained and
the world left when every wait succeeds, `none` as soon as one fails. -/
def waitsInTurn (env : Env) (expectedState : String) :
    List Trace → World → Option (List Trace × World)
  | [], w => some ([], w)
  | t :: rest, w =>
    match waitForOutputLoop env expectedState [t] [] w with
    | (.error _, _) => none
    | (.ok snapshots, w1) =>
      match waitsInTurn env expectedState rest w1 with
      | none => none
      | some (more, w2) => some (snapshots ++ more, w2)

/-- The calls `printTraceFeedback` makes when it prints one line per entry. -/
def perNodeFeedback (m : List (String × String)) : List Printf :=
  m.map (fun e => ⟨"Failed to run the gadget on node %q: %s", [.str e.1, .str e.2]⟩)

/-- Whether an operand is the string `s`. -/
def GoArg.isStr (s : String) : GoArg → Bool
  | .str t => t == s
  | .err _ => false

/-- The number of times the string `s` is an operand of the given print
calls. -/
def occurrences (s : String) (calls : List Printf) : Nat :=
  (calls.map (fun c => (c.args.filter (GoArg.isStr s)).length)).sum

/-- Whether an event received by `select` is a completion message. -/
def SelectEvent.isCompletion : SelectEvent → Bool
  | .sigs => false
  | .completion _ => true

/-- The number of completion messages among the events received. -/
def completions (events : List SelectEvent) : Nat :=
  (events.filter SelectEvent.isCompletion).length

/-- The replicas for which `genericStreamsDisplay` starts a reader: all of them
when no node is given in the flags, else those of that node. -/
def streamedReplicas (params : CommonFlags) (results : List Trace) : List Trace :=
  results.filter (fun i => decide (params.Node = "" ∨ i.Spec.Node = params.Node))

/-- Whether a request is a deletion. -/
def Request.isDelete : Request → Bool
  | .delete _ _ _ => true
  | _ => false

/-- The world `w1` comes from `w` without any deletion: the stored replicas are
the same and the requests added hold no deletion. -/
def NothingDeleted (w w1 : World) : Prop :=
  w1.traces = w.traces ∧
    ∃ extra, w1.requests = w.requests ++ extra ∧ extra.any Request.isDelete = false

/-- The terms `name=value` of the entries of a filter whose value is not empty,
in iteration order. -/
def selectorTerms (filter : List (String × String)) : List String :=
  (filter.filter (fun e => decide (e.2 ≠ ""))).map (fun e => e.1 ++ "=" ++ e.2)

/-! ## Sample inputs -/

/-- An environment in which every client is set up and three nodes are
listed; no watch delivers anything. -/
def sampleEnv : Env :=
  { kubeRestConfig := none
    UnversionedRESTClientFor := none
    NewForConfig := none
    NewClientsetFromConfigFlags := none
    NodesList := .ok [⟨"node-a"⟩, ⟨"node-b"⟩, ⟨"node-c"⟩]
    Watch := fun _ => .ok { events := [], closed := false } }

/-- A random generator that always draws 10. -/
def sampleRand : Nat → Nat := fun _ => 10

/-- The configuration of `kubectl gadget seccompadvisor start -p mypod`, on
every node. -/
def sampleConfig : TraceConfig :=
  { GadgetName := "seccomp"
    Operation := "start"
    TraceOutputMode := "Status"
    TraceOutputState := ""
    TraceOutput := ""
    CommonFlags :=
      { Node := "", Namespace := "", Podname := "mypod", Containername := "", Labels := [],
        OutputMode := "", Verbose := false } }

/-- An empty cluster that serves every request. -/
def emptyWorld : World := { traces := [], requests := [], faults := [], stderr := [] }

/-- A cluster whose second and third requests are rejected. -/
def faultyWorld : World :=
  { traces := [], requests := [],
    faults := [none, some (.new "admission webhook denied the request"),
      some (.new "connection refused")],
    stderr := [] }

/-- A cluster whose second request is rejected, the following ones being
served. -/
def rejectSecondWorld : World :=
  { traces := [], requests := [],
    faults := [none, some (.new "admission webhook denied the request")],
    stderr := [] }

/-- A snapshot of the sample replica on `node-a`, with the given status
strings. -/
def sampleSnapshot (state warning error : String) : Trace :=
  { ObjectMeta :=
      { (newTrace sampleConfig "aaaaaaaaaaaaaaaa").ObjectMeta with Name := "seccomp-x7k2p" }
    Spec := ((newTrace sampleConfig "aaaaaaaaaaaaaaaa").onNode "node-a").Spec
    Status :=
      { State := state, Output := "", OperationError := error, OperationWarning := warning } }

/-- A notification of the given type carrying `sampleSnapshot`. -/
def sampleEvent (type : EventType) (state warning error : String) : Event :=
  { type := type, object := { content := .ok (sampleSnapshot state warning error) } }

/-- The sample environment, every watch delivering `events` and then staying
silent. -/
def watchEnv (events : List Event) : Env :=
  { sampleEnv with Watch := fun _ => .ok { events := events, closed := false } }

/-- A cluster storing three replicas of the trace `aaaaaaaaaaaaaaaa`, named
`seccomp-1`, `seccomp-2` and `seccomp-3`, in which the second and the fourth
request are rejected. -/
def patchWorld : World :=
  { traces :=
      [ { sampleSnapshot "Started" "" "" with
          ObjectMeta := { (sampleSnapshot "" "" "").ObjectMeta with Name := "seccomp-1" } },
        { sampleSnapshot "Started" "" "" with
          ObjectMeta := { (sampleSnapshot "" "" "").ObjectMeta with Name := "seccomp-2" } },
        { sampleSnapshot "Started" "" "" with
          ObjectMeta := { (sampleSnapshot "" "" "").ObjectMeta with Name := "seccomp-3" } } ]
    requests := []
    faults := [none, some (.new "conflict"), none, some (.new "server timeout")]
    stderr := [] }

/-- A cluster storing one replica of the trace `aaaaaaaaaaaaaaaa`, in state
`Started`, that serves every request. -/
def singleReplicaWorld : World :=
  { traces := [sampleSnapshot "Started" "" ""], requests := [], faults := [], stderr := [] }

/-- A cluster storing one replica of the trace `aaaaaaaaaaaaaaaa`, in which the
next request is rejected. -/
def rejectNextWorld : World :=
  { traces := [sampleSnapshot "Started" "" ""], requests := [],
    faults := [some (.new "connection refused")], stderr := [] }

/-- An environment in which `kubeRestConfig` fails. -/
def brokenEnv : Env := { sampleEnv with kubeRestConfig := some (.new "no kubeconfig") }

/-- A cluster storing three replicas of the trace `aaaaaaaaaaaaaaaa`, named
`seccomp-1`, `seccomp-2` and `seccomp-3`, that serves every request. -/
def threeReplicaWorld : World := { patchWorld with faults := [] }

/-- The sample environment in which the watch on `seccomp-2` delivers a
notification reporting the operation error `boom` and every other watch a
notification in state `Stopped`. -/
def failSecondWatchEnv : Env :=
  { sampleEnv with
    Watch := fun name =>
      if name = "seccomp-2" then
        .ok { events := [sampleEvent .Modified "Started" "" "boom"], closed := false }
      else .ok { events := [sampleEvent .Modified "Stopped" "" ""], closed := false } }

/-- Two replicas, on `node-a` and on `node-b`. -/
def streamResults : List Trace :=
  [sampleSnapshot "Started" "" "", (sampleSnapshot "Started" "" "").onNode "node-b"]

/-- The sample environment in which `ExecPod` fails on `node-b` and returns
without error on the other nodes. -/
def execFailEnv : Env :=
  { sampleEnv with
    ExecPod := fun nodeName _ =>
      if nodeName = "node-b" then some (some (.new "connection reset")) else some none }

/-- The sample configuration with `Stopped` as the state in which the trace
holds its output. -/
def statusConfig : TraceConfig := { sampleConfig with TraceOutputState := "Stopped" }

/-- A display function in the manner of `runSeccompAdvisorStop`: it prints the
output of every result and returns no error. -/
def sampleDisplay (results : List Trace) : Option GoError × List Printf :=
  (none, results.map (fun i => ⟨"%v\n", [.str i.Status.Output]⟩))

end TraceUtils

/-! # The NRI hook

Embedding of `gadget-container/hooks/nri/main.go`. The hook is told by
containerd that a container was created or deleted and passes it on to the
local Gadget Tracer Manager. -/

namespace NRIHook

open TraceUtils

/-- The annotation holding the namespace of the sandbox (pod). -/
def SandboxNamespace : String := "io.kubernetes.cri.sandbox-namespace"

/-- The annotation holding the name of the sandbox (pod). -/
def SandboxName : String := "io.kubernetes.cri.sandbox-name"

/-- The annotation holding the name of the container in the pod. -/
def ContainerName : String := "io.kubernetes.cri.container-name"

/-- Modelled from the spec: the state `types.Create` of the library
`github.com/containerd/nri`, whose states are strings. -/
def Create : String := "create"

/-- Modelled from the spec: the state `types.Delete` of the library
`github.com/containerd/nri`. -/
def Delete : String := "delete"

/-- Modelled from the spec: the part of `types.Spec` of the library
`github.com/containerd/nri` that the hook reads. -/
structure Spec where
  Annotations : List (String × String)
  deriving DecidableEq, Repr

/-- Modelled from the spec: the part of `types.Request` of the library
`github.com/containerd/nri` that the hook reads. The field `Spec` is a pointer
(`*Spec`, decoded from the JSON key `spec`): `none` is the nil pointer of a
request that carries no spec. -/
structure Request where
  Version : String
  State : String
  ID : String
  SandboxID : String
  Pid : Int
  Spec : Option Spec
  Labels : List (String × String)
  deriving DecidableEq, Repr

/-- Modelled from the spec: `types.Result` of the library, as far as
`NewResult` fills it in. -/
structure Result where
  Plugin : String
  Version : String
  deriving DecidableEq, Repr

/-- The library method `IsSandbox`: the request is for the sandbox itself when
its container ID is the sandbox ID. -/
def Request.IsSandbox (r : Request) : Bool := r.ID == r.SandboxID

/-- The library method `NewResult`. -/
def Request.NewResult (r : Request) (plugin : String) : Result :=
  { Plugin := plugin, Version := r.Version }

/-- Modelled from the spec: `pb.Label` of the tracer manager API. -/
structure Label where
  Key : String
  Value : String
  deriving DecidableEq, Repr

/-- Modelled from the spec: `pb.ContainerDefinition` of the tracer manager API
(section 6 of the specification: container id, cgroup path, cgroup id, id of
the mount namespace, labels, namespace, pod name, container name). -/
structure ContainerDefinition where
  ContainerId : String
  CgroupPath : String
  CgroupId : Nat
  Mntns : Nat
  Labels : List Label
  Namespace : String
  Podname : String
  ContainerName : String
  deriving DecidableEq, Repr

/-- A call into the local tracer agent. -/
inductive AgentCall where
  | RemoveContainer (definition : ContainerDefinition)
  | AddContainer (definition : ContainerDefinition)
  deriving DecidableEq, Repr

/-- What the node answers to the hook: the error (if any) of `grpc.Dial` and of
the two calls into the agent, and the results of the helpers of
`containerutils` (the errors of `CgroupPathV2AddMountpoint` and `GetCgroupID`
are dropped by the hook, only their values are kept). -/
structure HookEnv where
  Dial : Option GoError
  RemoveContainer : ContainerDefinition → Option GoError
  AddContainer : ContainerDefinition → Option GoError
  GetCgroupPaths : Int → Except GoError (String × String)
  CgroupPathV2AddMountpoint : String → String
  GetCgroupID : String → Nat
  GetMntNs : Int → Except GoError Nat

/-- What the hook did: the requests handed to `processContainer` and the calls
made into the agent, oldest first. -/
structure HookTrace where
  processed : List Request
  agent : List AgentCall

/-- How a call ends: it returns its values, or it panics on the dereference of
a nil pointer and returns nothing (the hook has no `recover`). -/
inductive Outcome (α : Type) where
  | returns (value : α)
  | panics

/-- `processContainer`: how it ends, with the error it returns, and the calls
it made into the agent. The labels of the request are given in iteration
order. The three reads `r.Spec.Annotations[...]` dereference the pointer
`r.Spec` without a test: on a request without spec the first of them panics,
before `AddContainer` is called. -/
def processContainer (env : HookEnv) (r : Request) :
    Outcome (Option GoError) × List AgentCall :=
  if r.ID = "" ∨ (r.Pid = 0 ∧ r.State = Create) then
    (.returns (some (.errorf "invalid OCI state: %v %v" [.str r.ID, .str (toString r.Pid)])),
      [])
  else
    match env.Dial with
    | some err => (.returns (some err), [])
    | none =>
      if r.State = Delete then
        let definition : ContainerDefinition :=
          { ContainerId := r.ID, CgroupPath := "", CgroupId := 0, Mntns := 0, Labels := [],
            Namespace := "", Podname := "", ContainerName := "" }
        (.returns (env.RemoveContainer definition), [.RemoveContainer definition])
      else
        match env.GetCgroupPaths r.Pid with
        | .error err => (.returns (some err), [])
        | .ok (_, cgroupPathV2) =>
          let cgroupPathV2WithMountpoint := env.CgroupPathV2AddMountpoint cgroupPathV2
          let cgroupId := env.GetCgroupID cgroupPathV2WithMountpoint
          match env.GetMntNs r.Pid with
          | .error err => (.returns (some err), [])
          | .ok mntns =>
            let labels := r.Labels.map (fun kv => ({ Key := kv.1, Value := kv.2 } : Label))
            match r.Spec with
            | none => (.panics, [])
            | some spec =>
              let ns := (spec.Annotations.lookup SandboxNamespace).getD ""
              let containerName := (spec.Annotations.lookup ContainerName).getD ""
              let podName := (spec.Annotations.lookup SandboxName).getD ""
              let definition : ContainerDefinition :=
                { ContainerId := r.ID
                  CgroupPath := cgroupPathV2WithMountpoint
                  CgroupId := cgroupId
                  Mntns := mntns
                  Labels := labels
                  Namespace := ns
                  Podname := podName
                  ContainerName := containerName }
              (.returns (env.AddContainer definition), [.AddContainer definition])

/-- `igHook.Invoke`: how it ends, with the result and the error it returns, and
what it did. The error returned by `processContainer` is dropped; a panic of
`processContainer` is not recovered and ends `Invoke` before it builds its
result. -/
def Invoke (env : HookEnv) (r : Request) : Outcome (Result × Option GoError) × HookTrace :=
  if r.IsSandbox = false ∧ (r.State = Create ∨ r.State = Delete) then
    match processContainer env r with
    | (.panics, calls) => (.panics, { processed := [r], agent := calls })
    | (.returns _, calls) =>
      let result := r.NewResult "ighook"
      (.returns (result, none), { processed := [r], agent := calls })
  else
    let result := r.NewResult "ighook"
    (.returns (result, none), { processed := [], agent := [] })

/-! ### Sample inputs -/

/-- A node on which the agent is reached but refuses every container. -/
def refusingEnv : HookEnv :=
  { Dial := none
    RemoveContainer := fun _ => some (.new "agent: unknown container")
    AddContainer := fun _ => some (.new "agent: cannot add container")
    GetCgroupPaths := fun _ => .ok ("/kubepods/pod1/c1", "/kubepods/pod1/c1")
    CgroupPathV2AddMountpoint := fun path => "/sys/fs/cgroup/unified" ++ path
    GetCgroupID := fun _ => 4242
    GetMntNs := fun _ => .ok 4026532256 }

/-- The creation of container `c1` of pod `mypod`, in sandbox `s1`. -/
def createRequest : Request :=
  { Version := "0.1", State := Create, ID := "c1", SandboxID := "s1", Pid := 1234,
    Spec := some
      { Annotations :=
          [(SandboxNamespace, "default"), (SandboxName, "mypod"), (ContainerName, "app")] },
    Labels := [("app", "web")] }

/-- The same creation request without spec: the request decoded from a JSON
document that has the keys `version`, `state`, `id`, `sandboxID`, `pid` and
`labels` and whose key `spec` is absent or null. -/
def specLessRequest : Request :=
  { Version := "0.1", State := Create, ID := "c1", SandboxID := "s1", Pid := 1234,
    Spec := none, Labels := [("app", "web")] }

end NRIHook

/-! # The IP resolver

Embedding of `enrich` in `pkg/operators/kubeipresolver/kubeipresolver.go`. -/

namespace KubeIPResolver

open TraceUtils

/-- Modelled from the spec: `types.EndpointKind` of `pkg/types` (not part of
the sources at hand), with the three kinds `enrich` assigns. -/
inductive EndpointKind where
  | Pod
  | Service
  | Raw
  deriving DecidableEq, Repr

/-- Modelled from the spec: `types.L3Endpoint` of `pkg/types`; the fields are
those `enrich` reads and writes. -/
structure L3Endpoint where
  Addr : String
  Kind : EndpointKind
  Name : String
  Namespace : String
  PodLabels : List (String × String)
  deriving DecidableEq, Repr

/-- A pod of the inventory, reduced to what `enrich` reads: `Name`,
`Namespace`, `Labels`, `Spec.HostNetwork` and `Status.PodIP`. -/
structure Pod where
  Name : String
  Namespace : String
  Labels : List (String × String)
  HostNetwork : Bool
  PodIP : String
  deriving DecidableEq, Repr

/-- A service of the inventory, reduced to what `enrich` reads: `Name`,
`Namespace`, `Labels` and `Spec.ClusterIP`. -/
structure Service where
  Name : String
  Namespace : String
  Labels : List (String × String)
  ClusterIP : String
  deriving DecidableEq, Repr

/-- The inventory cache: what `GetPods` and `GetSvcs` return. -/
structure K8sInventoryCache where
  GetPods : Except GoError (List Pod)
  GetSvcs : Except GoError (List Service)

/-- The state of `enrich` after a loop: the endpoints, the counter `found`,
and whether the function has returned from inside the loop. -/
structure Progress where
  endpoints : List L3Endpoint
  found : Nat
  returned : Bool
  deriving DecidableEq, Repr

/-- The inner loop `for _, endpoint := range endpoints` of `enrich`, which is
the same for a pod and for a service up to the object copied from: `addr` is
its address (`PodIP` or `ClusterIP`), `kind`, `name`, `ns` and `labels` are
what a matching endpoint receives; `total` is `len(endpoints)`. -/
def enrichEndpoints (total : Nat) (addr : String) (kind : EndpointKind) (name ns : String)
    (labels : List (String × String)) : List L3Endpoint → Nat → Progress
  | [], found => { endpoints := [], found := found, returned := false }
  | endpoint :: rest, found =>
    if addr = endpoint.Addr then
      let endpoint : L3Endpoint :=
        { endpoint with Kind := kind, Name := name, Namespace := ns, PodLabels := labels }
      if found + 1 = total then
        { endpoints := endpoint :: rest, found := found + 1, returned := true }
      else
        let p := enrichEndpoints total addr kind name ns labels rest (found + 1)
        { p with endpoints := endpoint :: p.endpoints }
    else
      let p := enrichEndpoints total addr kind name ns labels rest found
      { p with endpoints := endpoint :: p.endpoints }

/-- The loop `for _, pod := range pods` of `enrich`. -/
def enrichPods (total : Nat) : List Pod → List L3Endpoint → Nat → Progress
  | [], endpoints, found => { endpoints := endpoints, found := found, returned := false }
  | pod :: rest, endpoints, found =>
    if pod.HostNetwork then enrichPods total rest endpoints found
    else
      let p := enrichEndpoints total pod.PodIP .Pod pod.Name pod.Namespace pod.Labels
        endpoints found
      if p.returned then p else enrichPods total rest p.endpoints p.found

/-- The loop `for _, svc := range svcs` of `enrich`. -/
def enrichSvcs (total : Nat) : List Service → List L3Endpoint → Nat → Progress
  | [], endpoints, found => { endpoints := endpoints, found := found, returned := false }
  | svc :: rest, endpoints, found =>
    let p := enrichEndpoints total svc.ClusterIP .Service svc.Name svc.Namespace svc.Labels
      endpoints found
    if p.returned then p else enrichSvcs total rest p.endpoints p.found

/-- `KubeIPResolverInstance.enrich`: the endpoints of the event as the function
leaves them, and the warnings it logs. -/
def enrich (k8sInventory : K8sInventoryCache) (endpoints : List L3Endpoint) :
    List L3Endpoint × List Printf :=
  match k8sInventory.GetPods with
  | .error err => (endpoints, [⟨"getting pods from k8s inventory: %v", [.err (some err)]⟩])
  | .ok pods =>
    let endpoints := endpoints.map (fun e => { e with Kind := EndpointKind.Raw })
    let p := enrichPods endpoints.length pods endpoints 0
    if p.returned then (p.endpoints, [])
    else
      match k8sInventory.GetSvcs with
      | .error err =>
        (p.endpoints, [⟨"getting services from k8s inventory: %v", [.err (some err)]⟩])
      | .ok svcs => ((enrichSvcs endpoints.length svcs p.endpoints p.found).endpoints, [])

/-! ### Specification-side definitions and sample inputs -/

/-- The endpoint `e1` is what `enrich` may make of the endpoint `e`, given the
listed pods and services: it has the address of `e` and either is `e` itself,
or carries the kind Pod with the name, namespace and labels of a listed pod
that is not host-network and has that address, or carries the kind Service
with the name, namespace and labels of a listed service of that cluster
address. -/
def ResolvedBy (pods : List Pod) (svcs : List Service) (e e1 : L3Endpoint) : Prop :=
  e1.Addr = e.Addr ∧
    (e1 = e ∨
      (∃ pod ∈ pods, pod.HostNetwork = false ∧ pod.PodIP = e.Addr ∧ e1.Kind = .Pod ∧
        e1.Name = pod.Name ∧ e1.Namespace = pod.Namespace ∧ e1.PodLabels = pod.Labels) ∨
      (∃ svc ∈ svcs, svc.ClusterIP = e.Addr ∧ e1.Kind = .Service ∧
        e1.Name = svc.Name ∧ e1.Namespace = svc.Namespace ∧ e1.PodLabels = svc.Labels))

/-- An endpoint of the given address, not resolved yet. -/
def rawEndpoint (addr : String) : L3Endpoint :=
  { Addr := addr, Kind := .Raw, Name := "", Namespace := "", PodLabels := [] }

/-- An inventory with three pods on the pod network and no service: a
completed job pod that still reports the address `10.0.0.1`, the pod that got
this address afterwards, and a database pod at `10.0.0.2`. -/
def sampleInventory : K8sInventoryCache :=
  { GetPods := .ok
      [ { Name := "job-1", Namespace := "default", Labels := [], HostNetwork := false,
          PodIP := "10.0.0.1" },
        { Name := "web", Namespace := "default", Labels := [], HostNetwork := false,
          PodIP := "10.0.0.1" },
        { Name := "db", Namespace := "default", Labels := [], HostNetwork := false,
          PodIP := "10.0.0.2" } ]
    GetSvcs := .ok [] }

end KubeIPResolver

/-! # Manifest parsing

Embedding of `parseK8sYaml` in `cmd/kubectl-gadget/deploy.go`. -/

namespace Deploy

open TraceUtils

/-- The alternatives of the regular expression `acceptedK8sTypes`. -/
def acceptedK8sTypes : List String :=
  ["Namespace", "ServiceAccount", "Role", "RoleBinding", "ClusterRole", "ClusterRoleBinding",
    "DaemonSet", "CustomResourceDefinition"]

/-- `MatchString` for a regular expression that is an alternation of literal
words, without anchors: the string matches when one of the words occurs in
it. -/
def MatchString (alternatives : List String) (s : String) : Bool :=
  alternatives.any (fun a => s.toList.tails.any (fun t => a.toList.isPrefixOf t))

/-- The loop `for _, f := range sepYamlfiles` of `parseK8sYaml`; `decode` is
the universal deserializer, giving the object and the kind of a document, and
`retVal` the objects gathered so far. -/
def parseK8sYamlLoop {Object : Type} (decode : String → Except GoError (Object × String)) :
    List String → List Object → Except GoError (List Object)
  | [], retVal => .ok retVal
  | f :: rest, retVal =>
    if f = "\n" ∨ f = "" then parseK8sYamlLoop decode rest retVal
    else
      match decode f with
      | .error err => .error (.errorf "error while decoding YAML object: %w" [.err (some err)])
      | .ok (obj, kind) =>
        if MatchString acceptedK8sTypes kind = false then
          .error (.errorf
            "the custom-roles configMap contained K8s object types which are not supported! Skipping object with type: %s"
            [.str kind])
        else parseK8sYamlLoop decode rest (retVal ++ [obj])

/-- `parseK8sYaml`; `Split` is `strings.Split`. -/
def parseK8sYaml {Object : Type} (Split : String → String → List String)
    (decode : String → Except GoError (Object × String)) (content : String) :
    Except GoError (List Object) :=
  parseK8sYamlLoop decode (Split content "---") []

/-! ### Sample inputs -/

/-- A manifest holding one document, a list of roles. -/
def roleListManifest : String :=
  "apiVersion: rbac.authorization.k8s.io/v1\nkind: RoleList\nitems: []\n"

/-- `strings.Split` on a content in which the separator does not occur: the
content is the only piece. -/
def sampleSplit (content _sep : String) : List String := [content]

/-- A deserializer for the sample manifests: the object is the document text,
with the kind that the document declares. -/
def sampleDecode (f : String) : Except TraceUtils.GoError (String × String) :=
  if f = roleListManifest then .ok (f, "RoleList")
  else if f = "apiVersion: v1\nkind: Namespace\nmetadata:\n  name: gadget\n" then
    .ok (f, "Namespace")
  else if f = "apiVersion: v1\nkind: Pod\nmetadata:\n  name: p\n" then .ok (f, "Pod")
  else .error (.new "no kind is registered")

end Deploy

namespace TraceUtils

/-! ## Lemmas on the creation loop -/

/-- Setting the node twice keeps the last node. -/
theorem Trace.onNode_onNode (trace : Trace) (a b : String) :
    (trace.onNode a).onNode b = trace.onNode b := rfl

/-- Setting the node a replica already has changes nothing. -/
theorem Trace.onNode_self (trace : Trace) : trace.onNode trace.Spec.Node = trace := rfl

/-- The creation loop when every creation request is served: one request per
target node, each stored, and the loop reports whether a target was met. -/
theorem createTracesLoop_served (traceNode : String) (nodes : List Node) :
    ∀ (trace : Trace) (nodeFound : Bool) (w : World),
      (traceNode ≠ "" → trace.Spec.Node = traceNode) →
      (∀ i, i < (targetNodes traceNode nodes).length → w.faults.getD i none = none) →
      createTracesLoop traceNode nodes trace nodeFound w =
        (.ok (nodeFound || !(targetNodes traceNode nodes).isEmpty),
          { w with
            traces := w.traces ++ (targetNodes traceNode nodes).map (fun n => trace.onNode n.Name)
            requests := w.requests ++ (targetNodes traceNode nodes).map
              (fun n => Request.post trace.ObjectMeta.Namespace "traces" (trace.onNode n.Name))
            faults := w.faults.drop (targetNodes traceNode nodes).length }) := by
  induction nodes with
  | nil =>
    intro trace nodeFound w _ _
    simp [createTracesLoop, targetNodes]
  | cons node rest ih =>
    intro trace nodeFound w hnode hserved
    by_cases hskip : traceNode ≠ "" ∧ node.Name ≠ traceNode
    · have hnot : ¬ (traceNode = "" ∨ node.Name = traceNode) := by
        rcases hskip with ⟨h1, h2⟩
        rintro (h | h)
        · exact h1 h
        · exact h2 h
      have htargets : targetNodes traceNode (node :: rest) = targetNodes traceNode rest := by
        simp [targetNodes, List.filter_cons, hnot]
      rw [htargets] at hserved ⊢
      rw [createTracesLoop, if_pos hskip]
      exact ih trace nodeFound w hnode hserved
    · have hyes : traceNode = "" ∨ node.Name = traceNode := by
        by_contra hcon
        exact hskip ⟨fun h => hcon (Or.inl h), fun h => hcon (Or.inr h)⟩
      have htargets : targetNodes traceNode (node :: rest) =
          node :: targetNodes traceNode rest := by
        simp [targetNodes, List.filter_cons, hyes]
      rw [htargets] at hserved ⊢
      have hbody : (if traceNode = "" then
          ({ trace with Spec := { trace.Spec with Node := node.Name } } : Trace)
          else trace) = trace.onNode node.Name := by
        by_cases h0 : traceNode = ""
        · simp [h0, Trace.onNode]
        · have hname : node.Name = traceNode := hyes.resolve_left h0
          have hspec := hnode h0
          rw [if_neg h0, hname, ← hspec]
          rfl
      have hhead : w.faults.headD none = none := by
        have := hserved 0 (by simp)
        cases hf : w.faults with
        | nil => rfl
        | cons a t => simpa [hf] using this
      rw [createTracesLoop, if_neg hskip]
      simp only [hbody, World.Post, World.serve, hhead]
      rw [ih (trace.onNode node.Name) true _ (fun h0 => by
          have hname : node.Name = traceNode := hyes.resolve_left h0
          simp [Trace.onNode, hname])
        (fun i hi => by
          have := hserved (i + 1) (by simpa using hi)
          cases hf : w.faults with
          | nil => simp
          | cons a t => simpa [hf] using this)]
      simp [Trace.onNode, List.drop_tail]

/-- The creation loop when the request for the target `t` is the first to be
rejected: it stops there, cleans up and returns the creation error. -/
theorem createTracesLoop_failed (traceNode : String) (nodes : List Node) :
    ∀ (pre : List Node) (t : Node) (post : List Node) (e : GoError)
      (trace : Trace) (nodeFound : Bool) (w : World),
      (traceNode ≠ "" → trace.Spec.Node = traceNode) →
      targetNodes traceNode nodes = pre ++ t :: post →
      (∀ i, i < pre.length → w.faults.getD i none = none) →
      w.faults.getD pre.length none = some e →
      createTracesLoop traceNode nodes trace nodeFound w =
        (.error (.errorf "Error creating trace on node %q: %w" [.str t.Name, .err (some e)]),
          let w1 : World :=
            { w with
              traces := w.traces ++ pre.map (fun n => trace.onNode n.Name)
              requests := w.requests ++ (pre ++ [t]).map
                (fun n => Request.post trace.ObjectMeta.Namespace "traces" (trace.onNode n.Name))
              faults := w.faults.drop (pre.length + 1) }
          match trace.ObjectMeta.Labels.lookup GLOBAL_TRACE_ID with
          | some traceID => deleteTraces w1 traceID
          | none => w1) := by
  induction nodes with
  | nil =>
    intro pre t post e trace nodeFound w _ htargets
    simp [targetNodes] at htargets
  | cons node rest ih =>
    intro pre t post e trace nodeFound w hnode htargets hserved hfail
    by_cases hskip : traceNode ≠ "" ∧ node.Name ≠ traceNode
    · have hnot : ¬ (traceNode = "" ∨ node.Name = traceNode) := by
        rcases hskip with ⟨h1, h2⟩
        rintro (h | h)
        · exact h1 h
        · exact h2 h
      have hsame : targetNodes traceNode (node :: rest) = targetNodes traceNode rest := by
        simp [targetNodes, List.filter_cons, hnot]
      rw [hsame] at htargets
      rw [createTracesLoop, if_pos hskip]
      exact ih pre t post e trace nodeFound w hnode htargets hserved hfail
    · have hyes : traceNode = "" ∨ node.Name = traceNode := by
        by_contra hcon
        exact hskip ⟨fun h => hcon (Or.inl h), fun h => hcon (Or.inr h)⟩
      have hcons : targetNodes traceNode (node :: rest) =
          node :: targetNodes traceNode rest := by
        simp [targetNodes, List.filter_cons, hyes]
      rw [hcons] at htargets
      have hbody : (if traceNode = "" then
          ({ trace with Spec := { trace.Spec with Node := node.Name } } : Trace)
          else trace) = trace.onNode node.Name := by
        by_cases h0 : traceNode = ""
        · simp [h0, Trace.onNode]
        · have hname : node.Name = traceNode := hyes.resolve_left h0
          have hspec := hnode h0
          rw [if_neg h0, hname, ← hspec]
          rfl
      rw [createTracesLoop, if_neg hskip]
      cases pre with
      | nil =>
        simp only [List.nil_append, List.cons.injEq] at htargets
        obtain ⟨rfl, -⟩ := htargets
        have hhead : w.faults.headD none = some e := by
          cases hf : w.faults with
          | nil => simp [hf] at hfail
          | cons a l => simpa [hf] using hfail
        simp only [hbody, World.Post, World.serve, hhead]
        simp [Trace.onNode, List.drop_one]
      | cons p pre1 =>
        simp only [List.cons_append, List.cons.injEq] at htargets
        obtain ⟨rfl, hrest⟩ := htargets
        have hhead : w.faults.headD none = none := by
          have := hserved 0 (by simp)
          cases hf : w.faults with
          | nil => rfl
          | cons a l => simpa [hf] using this
        simp only [hbody, World.Post, World.serve, hhead]
        rw [ih pre1 t post e (trace.onNode node.Name) true _ (fun h0 => by
            have hname : node.Name = traceNode := hyes.resolve_left h0
            simp [Trace.onNode, hname]) hrest
          (fun i hi => by
            have := hserved (i + 1) (by simpa using hi)
            cases hf : w.faults with
            | nil => simp
            | cons a l => simpa [hf] using this)
          (by
            cases hf : w.faults with
            | nil => simp [hf] at hfail
            | cons a l => simpa [hf] using hfail)]
        simp [Trace.onNode, List.drop_tail]

/-- No listed node bears the configured name: there is no target. -/
theorem targetNodes_eq_nil_of_no_match (traceNode : String) (nodes : List Node)
    (hnode : traceNode ≠ "") (hnone : ∀ n ∈ nodes, n.Name ≠ traceNode) :
    targetNodes traceNode nodes = [] := by
  simp only [targetNodes, List.filter_eq_nil_iff]
  intro n hn
  simp [hnode, hnone n hn]

/-- The trace built by `CreateTrace` carries the trace ID label. -/
theorem newTrace_labels_mem (config : TraceConfig) (traceID : String) :
    (GLOBAL_TRACE_ID, traceID) ∈ (newTrace config traceID).ObjectMeta.Labels := by
  simp [newTrace]

/-- Looking up `global-trace-id` in the labels built by `CreateTrace` yields the
trace ID. -/
theorem newTrace_lookup (config : TraceConfig) (traceID : String) :
    (newTrace config traceID).ObjectMeta.Labels.lookup GLOBAL_TRACE_ID = some traceID := by
  simp [newTrace, List.lookup]

/-! ## Trace Controller: creation -/

/-- C1: when the clients are set up, the node listing returns `nodes` and every
creation request is served, `CreateTrace` issues exactly one creation request
per target node (every listed node, in listing order, when no node is
configured, else the listed nodes of the configured name) and nothing else;
each created replica is stored, has `Spec.Node` equal to the name of its node
and carries the label `global-trace-id` of the drawn trace ID, and that ID is
what `CreateTrace` returns (whenever no node is configured or there is a
target). -/
theorem CreateTrace_one_replica_per_target (env : Env) (rand : Nat → Nat)
    (config : TraceConfig) (w : World) (nodes : List Node)
    (hclient : env.NewClientsetFromConfigFlags = none)
    (hnodes : env.NodesList = .ok nodes)
    (hrest : getRestClient env = none)
    (hserved : ∀ i, i < (targetNodes config.CommonFlags.Node nodes).length →
      w.faults.getD i none = none) :
    (config.CommonFlags.Node = "" → targetNodes config.CommonFlags.Node nodes = nodes) ∧
    (config.CommonFlags.Node ≠ "" → targetNodes config.CommonFlags.Node nodes =
      nodes.filter (fun n => decide (n.Name = config.CommonFlags.Node))) ∧
    (CreateTrace env rand config w).2.requests =
      w.requests ++ (targetNodes config.CommonFlags.Node nodes).map
        (fun n => Request.post "gadget" "traces"
          ((newTrace config (randomTraceID rand)).onNode n.Name)) ∧
    (CreateTrace env rand config w).2.traces =
      w.traces ++ (targetNodes config.CommonFlags.Node nodes).map
        (fun n => (newTrace config (randomTraceID rand)).onNode n.Name) ∧
    (∀ n : Node,
      ((newTrace config (randomTraceID rand)).onNode n.Name).Spec.Node = n.Name ∧
      ((newTrace config (randomTraceID rand)).onNode n.Name).ObjectMeta.Labels.lookup
        GLOBAL_TRACE_ID = some (randomTraceID rand)) ∧
    (config.CommonFlags.Node = "" ∨ targetNodes config.CommonFlags.Node nodes ≠ [] →
      (CreateTrace env rand config w).1 = .ok (randomTraceID rand)) := by
  have hloop := createTracesLoop_served config.CommonFlags.Node nodes
    (newTrace config (randomTraceID rand)) false w (fun _ => rfl) hserved
  have hnodeEq : (newTrace config (randomTraceID rand)).Spec.Node = config.CommonFlags.Node := rfl
  have hnsEq : (newTrace config (randomTraceID rand)).ObjectMeta.Namespace = "gadget" := rfl
  rw [hnsEq] at hloop
  refine ⟨?_, ?_, ?_, ?_, ?_, ?_⟩
  · intro h0
    simp [targetNodes, h0]
  · intro h0
    simp [targetNodes, h0]
  · simp only [CreateTrace, createTraces, hclient, hnodes, hrest, hnodeEq, hloop]
    split_ifs <;> rfl
  · simp only [CreateTrace, createTraces, hclient, hnodes, hrest, hnodeEq, hloop]
    split_ifs <;> rfl
  · intro n
    exact ⟨rfl, newTrace_lookup config (randomTraceID rand)⟩
  · intro hne
    simp only [CreateTrace, createTraces, hclient, hnodes, hrest, hnodeEq, hloop]
    rcases hne with h0 | hne
    · simp [h0]
    · have hfound : (false || !(targetNodes config.CommonFlags.Node nodes).isEmpty) = true := by
        cases htn : targetNodes config.CommonFlags.Node nodes with
        | nil => exact absurd htn hne
        | cons a l => rfl
      simp [hfound]

/-- Witness of C1: on the three-node sample cluster the theorem applies, the
call returns the drawn ID and stores one replica per node, in listing order. -/
theorem CreateTrace_one_replica_per_target_witness :
    (CreateTrace sampleEnv sampleRand sampleConfig emptyWorld).1 = .ok "aaaaaaaaaaaaaaaa" ∧
    (CreateTrace sampleEnv sampleRand sampleConfig emptyWorld).2.traces =
      [(newTrace sampleConfig "aaaaaaaaaaaaaaaa").onNode "node-a",
       (newTrace sampleConfig "aaaaaaaaaaaaaaaa").onNode "node-b",
       (newTrace sampleConfig "aaaaaaaaaaaaaaaa").onNode "node-c"] :=
  have h := CreateTrace_one_replica_per_target sampleEnv sampleRand sampleConfig emptyWorld
    [⟨"node-a"⟩, ⟨"node-b"⟩, ⟨"node-c"⟩] rfl rfl rfl (fun i _ => by simp [emptyWorld])
  ⟨h.2.2.2.2.2 (Or.inl rfl), h.2.2.2.1⟩

/-- C3: when the clients are set up and the node listing holds no node named
like the (non-empty) configured node, `CreateTrace` fails with the error
`Invalid filter: Node %q does not exist` on that name and leaves the world as it
was: no creation request, nor any other, is issued. -/
theorem CreateTrace_invalid_target (env : Env) (rand : Nat → Nat)
    (config : TraceConfig) (w : World) (nodes : List Node)
    (hclient : env.NewClientsetFromConfigFlags = none)
    (hnodes : env.NodesList = .ok nodes)
    (hrest : getRestClient env = none)
    (hnode : config.CommonFlags.Node ≠ "")
    (hnone : ∀ n ∈ nodes, n.Name ≠ config.CommonFlags.Node) :
    CreateTrace env rand config w =
      (.error (.errorf "Invalid filter: Node %q does not exist" [.str config.CommonFlags.Node]),
        w) := by
  have htargets := targetNodes_eq_nil_of_no_match config.CommonFlags.Node nodes hnode hnone
  have hloop := createTracesLoop_served config.CommonFlags.Node nodes
    (newTrace config (randomTraceID rand)) false w (fun _ => rfl)
    (fun i hi => by simp [htargets] at hi)
  have hnodeEq : (newTrace config (randomTraceID rand)).Spec.Node = config.CommonFlags.Node := rfl
  rw [htargets] at hloop
  simp only [CreateTrace, createTraces, hclient, hnodes, hrest, hnodeEq, hloop]
  simp [hnode]

/-- Witness of C3: the node `node-z` is not among the three sample nodes. -/
theorem CreateTrace_invalid_target_witness :
    CreateTrace sampleEnv sampleRand
        { sampleConfig with CommonFlags := { sampleConfig.CommonFlags with Node := "node-z" } }
        emptyWorld =
      (.error (.errorf "Invalid filter: Node %q does not exist" [.str "node-z"]), emptyWorld) :=
  CreateTrace_invalid_target sampleEnv sampleRand
    { sampleConfig with CommonFlags := { sampleConfig.CommonFlags with Node := "node-z" } }
    emptyWorld [⟨"node-a"⟩, ⟨"node-b"⟩, ⟨"node-c"⟩] rfl rfl rfl (by decide) (by decide)

/-- `deleteTraces` issues exactly one request, the collection deletion, whatever
its outcome. -/
theorem deleteTraces_requests (w : World) (traceID : String) :
    (deleteTraces w traceID).requests =
      w.requests ++ [Request.delete "gadget" "traces" (GLOBAL_TRACE_ID ++ "=" ++ traceID)] := by
  unfold deleteTraces World.Delete World.serve
  cases w.faults.headD none <;> rfl

/-- A served `deleteTraces` removes the selected replicas of namespace
`gadget`. -/
theorem deleteTraces_served (w : World) (traceID : String)
    (hserved : w.faults.headD none = none) :
    (deleteTraces w traceID).traces =
      w.traces.filter (fun t => !(t.ObjectMeta.Namespace == "gadget" &&
        selects (GLOBAL_TRACE_ID ++ "=" ++ traceID) t)) := by
  unfold deleteTraces World.Delete World.serve
  rw [hserved]

/-- A replica carrying the label `key=value` is selected by that selector. -/
theorem selects_of_label_mem (key value : String) (t : Trace)
    (h : (key, value) ∈ t.ObjectMeta.Labels) : selects (key ++ "=" ++ value) t = true := by
  unfold selects
  rw [List.any_eq_true]
  exact ⟨(key, value), h, by simp⟩

/-- C2 (as amended): when the creation request for the target node `t` is
rejected with `e`, the requests for the targets before it having been served,
`CreateTrace` returns the error `Error creating trace on node %q: %w` wrapping
`e`, has issued creation requests for the targets up to `t` only, followed by
exactly one collection deletion for the selector `global-trace-id=<ID>`; and
when that deletion is served, no replica of namespace `gadget` labelled with
the trace ID is stored any more. -/
theorem CreateTrace_rollback (env : Env) (rand : Nat → Nat)
    (config : TraceConfig) (w : World) (nodes pre : List Node) (t : Node) (post : List Node)
    (e : GoError)
    (hclient : env.NewClientsetFromConfigFlags = none)
    (hnodes : env.NodesList = .ok nodes)
    (hrest : getRestClient env = none)
    (htargets : targetNodes config.CommonFlags.Node nodes = pre ++ t :: post)
    (hserved : ∀ i, i < pre.length → w.faults.getD i none = none)
    (hfail : w.faults.getD pre.length none = some e) :
    (CreateTrace env rand config w).1 =
      .error (.errorf "Error creating trace on node %q: %w" [.str t.Name, .err (some e)]) ∧
    (CreateTrace env rand config w).2.requests =
      w.requests ++ (pre ++ [t]).map
        (fun n => Request.post "gadget" "traces"
          ((newTrace config (randomTraceID rand)).onNode n.Name)) ++
        [Request.delete "gadget" "traces" (GLOBAL_TRACE_ID ++ "=" ++ randomTraceID rand)] ∧
    (w.faults.getD (pre.length + 1) none = none →
      ∀ x ∈ (CreateTrace env rand config w).2.traces,
        x.ObjectMeta.Namespace = "gadget" →
          (GLOBAL_TRACE_ID, randomTraceID rand) ∉ x.ObjectMeta.Labels) := by
  have hloop := createTracesLoop_failed config.CommonFlags.Node nodes pre t post e
    (newTrace config (randomTraceID rand)) false w (fun _ => rfl) htargets hserved hfail
  have hnodeEq : (newTrace config (randomTraceID rand)).Spec.Node = config.CommonFlags.Node := rfl
  have hnsEq : (newTrace config (randomTraceID rand)).ObjectMeta.Namespace = "gadget" := rfl
  rw [hnsEq, newTrace_lookup] at hloop
  have hrun : CreateTrace env rand config w =
      (.error (.errorf "Error creating trace on node %q: %w" [.str t.Name, .err (some e)]),
        deleteTraces
          { w with
            traces := w.traces ++ pre.map
              (fun n => (newTrace config (randomTraceID rand)).onNode n.Name)
            requests := w.requests ++ (pre ++ [t]).map
              (fun n => Request.post "gadget" "traces"
                ((newTrace config (randomTraceID rand)).onNode n.Name))
            faults := w.faults.drop (pre.length + 1) } (randomTraceID rand)) := by
    simp only [CreateTrace, createTraces, hclient, hnodes, hrest, hnodeEq, hloop]
  rw [hrun]
  refine ⟨rfl, ?_, ?_⟩
  · rw [deleteTraces_requests]
  · intro hdel x hx hns hlabel
    have hhead : (w.faults.drop (pre.length + 1)).headD none = none := by
      rw [← hdel]
      cases hd : w.faults.drop (pre.length + 1) with
      | nil =>
        have hlen : w.faults.length ≤ pre.length + 1 := List.drop_eq_nil_iff.mp hd
        simp [List.getD_eq_getElem?_getD, List.getElem?_eq_none hlen]
      | cons a l =>
        have h0 : (w.faults.drop (pre.length + 1))[0]? = some a := by simp [hd]
        rw [List.getElem?_drop] at h0
        simp [List.getD_eq_getElem?_getD, h0]
    simp only [] at hx
    rw [deleteTraces_served _ _ hhead, List.mem_filter] at hx
    have hsel := selects_of_label_mem GLOBAL_TRACE_ID (randomTraceID rand) x hlabel
    simp [hns, hsel] at hx

/-- Witness of C2 (as amended): on the three-node sample cluster the second
creation is rejected and the deletion is served; nothing is left. -/
theorem CreateTrace_rollback_witness :
    (CreateTrace sampleEnv sampleRand sampleConfig rejectSecondWorld).1 =
      .error (.errorf "Error creating trace on node %q: %w"
        [.str "node-b", .err (some (.new "admission webhook denied the request"))]) ∧
    ∀ x ∈ (CreateTrace sampleEnv sampleRand sampleConfig rejectSecondWorld).2.traces,
      x.ObjectMeta.Namespace = "gadget" →
        (GLOBAL_TRACE_ID, randomTraceID sampleRand) ∉ x.ObjectMeta.Labels :=
  have h := CreateTrace_rollback sampleEnv sampleRand sampleConfig rejectSecondWorld
    [⟨"node-a"⟩, ⟨"node-b"⟩, ⟨"node-c"⟩] [⟨"node-a"⟩] ⟨"node-b"⟩ [⟨"node-c"⟩]
    (.new "admission webhook denied the request") rfl rfl rfl (by decide)
    (fun i hi => by
      have h0 : i = 0 := by simpa using hi
      subst h0
      rfl)
    rfl
  ⟨h.1, h.2.2 rfl⟩

/-- Counterexample to C2 as stated: on the three-node sample cluster the second
creation is rejected and so is the rollback deletion; `CreateTrace` returns the
creation error, yet the replica created on `node-a`, labelled with the trace
ID, is still stored. -/
theorem CreateTrace_rollback_may_leave_replicas :
    (CreateTrace sampleEnv sampleRand sampleConfig faultyWorld).1 =
      .error (.errorf "Error creating trace on node %q: %w"
        [.str "node-b", .err (some (.new "admission webhook denied the request"))]) ∧
    (CreateTrace sampleEnv sampleRand sampleConfig faultyWorld).2.traces =
      [(newTrace sampleConfig (randomTraceID sampleRand)).onNode "node-a"] ∧
    ((newTrace sampleConfig (randomTraceID sampleRand)).onNode "node-a").ObjectMeta.Labels.lookup
      GLOBAL_TRACE_ID = some (randomTraceID sampleRand) ∧
    ((newTrace sampleConfig (randomTraceID sampleRand)).onNode "node-a").ObjectMeta.Namespace =
      "gadget" :=
  ⟨rfl, rfl, rfl, rfl⟩

/-! ## Trace Watcher -/

/-- Notifications on which the condition asks for the next one do not change
the outcome of the wait: it is that of the wait on the remaining notifications,
in the world the skipped notifications leave. -/
theorem UntilWithoutRetryLoop_skip (closed : Bool)
    (condition : Event → World → (Bool × Option GoError) × World) (rest : List Event) :
    ∀ (pre : List Event) (w : World),
      (∀ e ∈ pre, ∀ w1, (condition e w1).1 = (false, none)) →
      UntilWithoutRetryLoop closed condition (pre ++ rest) w =
        UntilWithoutRetryLoop closed condition rest
          (pre.foldl (fun w1 e => (condition e w1).2) w) := by
  intro pre
  induction pre with
  | nil => intro w _; rfl
  | cons e pre ih =>
    intro w hpre
    have he := hpre e (List.mem_cons_self e pre) w
    have hsplit : condition e w = ((false, none), (condition e w).2) := by
      rw [← he]
    rw [List.cons_append, UntilWithoutRetryLoop, hsplit]
    simp only [List.foldl_cons]
    exact ih _ (fun e1 he1 => hpre e1 (List.mem_cons_of_mem e he1))

/-- C4 (as amended): on an Added or Modified notification whose decoded status
has an empty operationWarning and a non-empty operationError, the condition
returns the error carrying that message, whatever the state (equal to the
expected one or not); the wait ends at once with that error, whatever
notifications follow; and when the watch on a replica delivers that
notification after notifications that did not end the wait, `waitForOutput`
fails with that error. -/
theorem waitCondition_operationError (err : Option GoError) (expectedState : String)
    (event : Event) (w : World) (trace : Trace)
    (htype : event.type = .Added ∨ event.type = .Modified)
    (hdecode : mapToTrace event.object = .ok trace)
    (hwarning : trace.Status.OperationWarning = "")
    (herror : trace.Status.OperationError ≠ "") :
    waitCondition err expectedState event w =
      ((false, some (.new trace.Status.OperationError)), w) ∧
    (∀ (closed : Bool) (rest : List Event),
      UntilWithoutRetryLoop closed (waitCondition err expectedState) (event :: rest) w =
        (.error (.new trace.Status.OperationError), w)) ∧
    (∀ (env : Env) (t : Trace) (others returnedTraces : List Trace) (pre rest : List Event)
        (closed : Bool),
      getDynamicClient env = none →
      env.Watch t.ObjectMeta.Name = .ok { events := pre ++ event :: rest, closed := closed } →
      (∀ e ∈ pre, ∀ w1, (waitCondition none expectedState e w1).1 = (false, none)) →
      (waitForOutputLoop env expectedState (t :: others) returnedTraces w).1 =
        .error (.new trace.Status.OperationError)) := by
  have hcond : ∀ (err1 : Option GoError) (w1 : World),
      waitCondition err1 expectedState event w1 =
        ((false, some (.new trace.Status.OperationError)), w1) := by
    intro err1 w1
    unfold waitCondition
    rcases htype with h | h <;> simp [h, hdecode, hwarning, herror]
  refine ⟨hcond err w, fun closed rest => ?_, ?_⟩
  · rw [UntilWithoutRetryLoop, hcond]
  · intro env t others returnedTraces pre rest closed hdyn hwatch hpre
    simp only [waitForOutputLoop, watchTrace, hdyn, hwatch, UntilWithoutRetry]
    rw [UntilWithoutRetryLoop_skip closed _ (event :: rest) pre _ hpre]
    rw [UntilWithoutRetryLoop, hcond]

/-- Witness of C4 (as amended): a Modified notification reporting the error
`boom` while the state already is the expected `Stopped`. -/
theorem waitCondition_operationError_witness :
    waitCondition none "Stopped" (sampleEvent .Modified "Stopped" "" "boom") emptyWorld =
      ((false, some (.new "boom")), emptyWorld) :=
  (waitCondition_operationError none "Stopped" (sampleEvent .Modified "Stopped" "" "boom")
    emptyWorld (sampleSnapshot "Stopped" "" "boom") (Or.inr rfl) rfl rfl (by decide)).1

/-- Counterexample to C4 as stated: a Modified notification whose status holds
the operationError `boom` and also an operationWarning. The condition prints
the warning and returns neither done nor an error; a wait that next receives a
notification in the expected state succeeds. -/
theorem waitCondition_warning_hides_operationError :
    (sampleSnapshot "Started" "careful" "boom").Status.OperationError = "boom" ∧
    (waitCondition none "Stopped" (sampleEvent .Modified "Started" "careful" "boom")
      emptyWorld).1 = (false, none) ∧
    (UntilWithoutRetry
      { events := [sampleEvent .Modified "Started" "careful" "boom",
          sampleEvent .Modified "Stopped" "" ""], closed := false }
      (waitCondition none "Stopped") emptyWorld).1 =
      .ok (sampleEvent .Modified "Stopped" "" "") :=
  ⟨rfl, rfl, rfl⟩

/-- C5 (as amended): on an Added or Modified notification whose decoded status
has an empty operationWarning, an empty operationError and the expected state,
the condition reports success; the wait ends successfully on that very
notification whatever follows it; and when the watch on a replica delivers that
notification after notifications that did not end the wait, the snapshot
`waitForOutput` returns for the replica is the trace decoded from it. -/
theorem waitCondition_expected_state (err : Option GoError) (expectedState : String)
    (event : Event) (w : World) (trace : Trace)
    (htype : event.type = .Added ∨ event.type = .Modified)
    (hdecode : mapToTrace event.object = .ok trace)
    (hwarning : trace.Status.OperationWarning = "")
    (herror : trace.Status.OperationError = "")
    (hstate : trace.Status.State = expectedState) :
    waitCondition err expectedState event w = ((true, none), w) ∧
    (∀ (closed : Bool) (rest : List Event),
      UntilWithoutRetryLoop closed (waitCondition err expectedState) (event :: rest) w =
        (.ok event, w)) ∧
    (∀ (env : Env) (t : Trace) (returnedTraces : List Trace) (pre rest : List Event)
        (closed : Bool),
      getDynamicClient env = none →
      env.Watch t.ObjectMeta.Name = .ok { events := pre ++ event :: rest, closed := closed } →
      (∀ e ∈ pre, ∀ w1, (waitCondition none expectedState e w1).1 = (false, none)) →
      (waitForOutputLoop env expectedState [t] returnedTraces w).1 =
        .ok (returnedTraces ++ [trace])) := by
  have hcond : ∀ (err1 : Option GoError) (w1 : World),
      waitCondition err1 expectedState event w1 = ((true, none), w1) := by
    intro err1 w1
    unfold waitCondition
    rcases htype with h | h <;> simp [h, hdecode, hwarning, herror, hstate]
  refine ⟨hcond err w, fun closed rest => ?_, ?_⟩
  · rw [UntilWithoutRetryLoop, hcond]
  · intro env t returnedTraces pre rest closed hdyn hwatch hpre
    simp only [waitForOutputLoop, watchTrace, hdyn, hwatch, UntilWithoutRetry]
    rw [UntilWithoutRetryLoop_skip closed _ (event :: rest) pre _ hpre]
    rw [UntilWithoutRetryLoop, hcond]
    simp only [hdecode]

/-- Witness of C5 (as amended): the watch delivers a notification in state
`Started`, then one in the expected state `Stopped`. -/
theorem waitCondition_expected_state_witness :
    (waitForOutputLoop
      (watchEnv [sampleEvent .Added "Started" "" "", sampleEvent .Modified "Stopped" "" ""])
      "Stopped" [sampleSnapshot "" "" ""] [] emptyWorld).1 =
      .ok ([] ++ [sampleSnapshot "Stopped" "" ""]) :=
  (waitCondition_expected_state none "Stopped" (sampleEvent .Modified "Stopped" "" "")
    emptyWorld (sampleSnapshot "Stopped" "" "") (Or.inr rfl) rfl rfl rfl rfl).2.2
    (watchEnv [sampleEvent .Added "Started" "" "", sampleEvent .Modified "Stopped" "" ""])
    (sampleSnapshot "" "" "") [] [sampleEvent .Added "Started" "" ""] [] false rfl rfl
    (fun e he w1 => by
      have h0 : e = sampleEvent .Added "Started" "" "" := by simpa using he
      subst h0
      rfl)

/-- Counterexample to C5 as stated: a Modified notification whose status has an
empty operationError and the expected state `Stopped`, together with an
operationWarning. The condition does not report success, and the wait on a
watch that delivers nothing else times out. -/
theorem waitCondition_warning_hides_expected_state :
    (sampleSnapshot "Stopped" "careful" "").Status.OperationError = "" ∧
    (sampleSnapshot "Stopped" "careful" "").Status.State = "Stopped" ∧
    (waitCondition none "Stopped" (sampleEvent .Modified "Stopped" "careful" "")
      emptyWorld).1 = (false, none) ∧
    (waitForOutputLoop (watchEnv [sampleEvent .Modified "Stopped" "careful" ""])
      "Stopped" [sampleSnapshot "" "" ""] [] emptyWorld).1 = .error ErrWaitTimeout :=
  ⟨rfl, rfl, rfl, rfl⟩

/-- C6 (as amended): on a notification of type Deleted the condition returns
neither done nor an error, without decoding the object and without touching
the world: the notification is ignored and the wait goes on with the
notifications that follow. -/
theorem waitCondition_deleted_ignored (err : Option GoError) (expectedState : String)
    (event : Event) (w : World) (htype : event.type = .Deleted) :
    waitCondition err expectedState event w = ((false, none), w) ∧
    ∀ (closed : Bool) (rest : List Event),
      UntilWithoutRetryLoop closed (waitCondition err expectedState) (event :: rest) w =
        UntilWithoutRetryLoop closed (waitCondition err expectedState) rest w := by
  have hcond : waitCondition err expectedState event w = ((false, none), w) := by
    unfold waitCondition
    simp [htype]
  refine ⟨hcond, fun closed rest => ?_⟩
  rw [UntilWithoutRetryLoop, hcond]

/-- Witness of C6 (as amended): a Deleted notification of the sample
replica. -/
theorem waitCondition_deleted_ignored_witness :
    waitCondition none "Stopped" (sampleEvent .Deleted "Started" "" "") emptyWorld =
      ((false, none), emptyWorld) :=
  (waitCondition_deleted_ignored none "Stopped" (sampleEvent .Deleted "Started" "" "")
    emptyWorld rfl).1

/-- Counterexample to C6 as stated: the watch delivers a Deleted notification
and then a Modified one in the expected state. The condition returns no error
on the Deleted notification and `waitForOutput` succeeds. -/
theorem waitForOutput_survives_deleted :
    (waitCondition none "Stopped" (sampleEvent .Deleted "Started" "" "") emptyWorld).1 =
      (false, none) ∧
    (waitForOutput
      (watchEnv [sampleEvent .Deleted "Started" "" "", sampleEvent .Modified "Stopped" "" ""])
      "aaaaaaaaaaaaaaaa" "Stopped" singleReplicaWorld).1 =
      .ok [sampleSnapshot "Stopped" "" ""] :=
  ⟨rfl, rfl⟩

/-- On an Error notification the condition returns the captured variable `err`
as its error, whatever the notification carries. -/
theorem waitCondition_error_event (err : Option GoError) (expectedState : String)
    (event : Event) (w : World) (htype : event.type = .Error) :
    waitCondition err expectedState event w = ((false, err), w) := by
  unfold waitCondition
  simp [htype]

/-- C7, the code at the failing input: while `waitForOutput` waits on a replica,
the variable `err` that the condition returns on an Error notification holds
`nil`, so the condition returns neither done nor an error; when the watch on
the replica delivers an Error notification and then a Modified one in the
expected state, `waitForOutput` returns the snapshot and no error. -/
theorem waitForOutput_ignores_error_event :
    (waitCondition none "Stopped" (sampleEvent .Error "" "" "") emptyWorld).1 = (false, none) ∧
    (waitForOutput
      (watchEnv [sampleEvent .Error "" "" "", sampleEvent .Modified "Stopped" "" ""])
      "aaaaaaaaaaaaaaaa" "Stopped" singleReplicaWorld).1 =
      .ok [sampleSnapshot "Stopped" "" ""] :=
  ⟨rfl, rfl⟩

/-! ## Trace Controller: operation and deletion -/

/-- A successful `getTraceListFromID` means that the REST client was set up and
that the list is not empty. -/
theorem getTraceListFromID_ok (env : Env) (traceID : String) (w w1 : World)
    (traces : List Trace) (h : getTraceListFromID env traceID w = (.ok traces, w1)) :
    getRestClient env = none ∧ traces ≠ [] := by
  unfold getTraceListFromID getTraceListFromOptions at h
  cases hrest : getRestClient env with
  | some e => simp [hrest] at h
  | none =>
    refine ⟨rfl, ?_⟩
    rw [hrest] at h
    simp only at h
    rintro rfl
    cases hget : w.Get "gadget" "traces" (GLOBAL_TRACE_ID ++ "=" ++ traceID) with
    | mk r w2 =>
      rw [hget] at h
      cases r with
      | error e => simp at h
      | ok l =>
        by_cases hl : l.length = 0
        · simp [hl] at h
        · simp only [hl, if_false, Prod.mk.injEq, Except.ok.injEq] at h
          exact hl (by rw [h.1]; rfl)

/-- With the REST client set up, `updateTraceOperation` issues exactly one
patch request, whatever its outcome. -/
theorem updateTraceOperation_requests (env : Env) (trace : Trace) (operation : String)
    (w : World) (hrest : getRestClient env = none) :
    (updateTraceOperation env trace operation w).2.requests =
      w.requests ++ [Request.patch trace.ObjectMeta.Namespace "traces" trace.ObjectMeta.Name
        { Annotations := [(GADGET_OPERATION, operation)] }] := by
  unfold updateTraceOperation World.Patch World.serve
  rw [hrest]
  cases w.faults.headD none with
  | some e => rfl
  | none =>
    simp only
    split_ifs <;> rfl

/-- The patch loop of `SetTraceOperation`, started with the accumulated error
`err`: requests issued, `nil` result and gathered errors. -/
theorem SetTraceOperationLoop_spec (env : Env) (traceID operation : String)
    (hrest : getRestClient env = none) :
    ∀ (traces : List Trace) (err : Option GoError) (w : World),
      (SetTraceOperationLoop env traceID operation traces err w).2.requests =
        w.requests ++ traces.map (fun t =>
          Request.patch t.ObjectMeta.Namespace "traces" t.ObjectMeta.Name
            { Annotations := [(GADGET_OPERATION, operation)] }) ∧
      ((SetTraceOperationLoop env traceID operation traces err w).1 = none ↔
        err = none ∧ ∀ o ∈ patchOutcomes env operation traces w, o = none) ∧
      aggregatedErrors (SetTraceOperationLoop env traceID operation traces err w).1 =
        aggregatedErrors err ++ (patchOutcomes env operation traces w).filterMap id := by
  intro traces
  induction traces with
  | nil =>
    intro err w
    simp [SetTraceOperationLoop, patchOutcomes]
  | cons t rest ih =>
    intro err w
    have hreq := updateTraceOperation_requests env t operation w hrest
    cases hup : updateTraceOperation env t operation w with
    | mk o w2 =>
      rw [hup] at hreq
      simp only at hreq
      cases o with
      | none =>
        obtain ⟨h1, h2, h3⟩ := ih err w2
        simp only [SetTraceOperationLoop, patchOutcomes, hup]
        refine ⟨?_, ?_, ?_⟩
        · rw [h1, hreq]; simp
        · rw [h2]; simp
        · rw [h3]; simp
      | some localError =>
        obtain ⟨h1, h2, h3⟩ := ih (some (.errorf "%w\nError updating trace operation for %s: %v"
          [.err err, .str traceID, .err (some localError)])) w2
        simp only [SetTraceOperationLoop, patchOutcomes, hup]
        refine ⟨?_, ?_, ?_⟩
        · rw [h1, hreq]; simp
        · rw [h2]; simp
        · rw [h3]; simp [aggregatedErrors]

/-- C8: when the REST client is set up, the listing request is served and no
stored replica of namespace `gadget` is selected by `global-trace-id=<traceID>`
(the replica listing is empty), `SetTraceOperation` returns the error
`No traces found for traceID %q!` on that ID, and the only request it has issued
is the listing: no patch request. -/
theorem SetTraceOperation_unknown_id (env : Env) (traceID operation : String) (w : World)
    (hrest : getRestClient env = none)
    (hserved : w.faults.headD none = none)
    (hempty : w.traces.filter (fun t => t.ObjectMeta.Namespace == "gadget" &&
      selects (GLOBAL_TRACE_ID ++ "=" ++ traceID) t) = []) :
    (SetTraceOperation env traceID operation w).1 =
      some (.errorf "No traces found for traceID %q!" [.str traceID]) ∧
    (SetTraceOperation env traceID operation w).2.requests =
      w.requests ++ [Request.get "gadget" "traces" (GLOBAL_TRACE_ID ++ "=" ++ traceID)] ∧
    (SetTraceOperation env traceID operation w).2.traces = w.traces := by
  unfold SetTraceOperation getTraceListFromID getTraceListFromOptions World.Get World.serve
  simp only [hrest, hserved, hempty]
  exact ⟨rfl, rfl, rfl⟩

/-- Witness of C8: an operation on a trace ID in an empty cluster. -/
theorem SetTraceOperation_unknown_id_witness :
    (SetTraceOperation sampleEnv "nosuchtrace" "stop" emptyWorld).1 =
      some (.errorf "No traces found for traceID %q!" [.str "nosuchtrace"]) ∧
    (SetTraceOperation sampleEnv "nosuchtrace" "stop" emptyWorld).2.requests =
      [] ++ [Request.get "gadget" "traces" (GLOBAL_TRACE_ID ++ "=" ++ "nosuchtrace")] :=
  have h := SetTraceOperation_unknown_id sampleEnv "nosuchtrace" "stop" emptyWorld rfl rfl rfl
  ⟨h.1, h.2.1⟩

/-- C9: when the listing for the trace ID returns the (then non-empty) replica
list `traces`, `SetTraceOperation` issues one patch request per replica, in
listing order, whatever the outcome of each; it returns `nil` exactly when
every patch succeeded; and the errors gathered in the error it returns are
exactly the errors of the failed patches, in order. -/
theorem SetTraceOperation_patches_all (env : Env) (traceID operation : String) (w w1 : World)
    (traces : List Trace)
    (hlist : getTraceListFromID env traceID w = (.ok traces, w1)) :
    traces ≠ [] ∧
    (SetTraceOperation env traceID operation w).2.requests =
      w1.requests ++ traces.map (fun t =>
        Request.patch t.ObjectMeta.Namespace "traces" t.ObjectMeta.Name
          { Annotations := [(GADGET_OPERATION, operation)] }) ∧
    ((SetTraceOperation env traceID operation w).1 = none ↔
      ∀ o ∈ patchOutcomes env operation traces w1, o = none) ∧
    aggregatedErrors (SetTraceOperation env traceID operation w).1 =
      (patchOutcomes env operation traces w1).filterMap id := by
  obtain ⟨hrest, hne⟩ := getTraceListFromID_ok env traceID w w1 traces hlist
  obtain ⟨h1, h2, h3⟩ := SetTraceOperationLoop_spec env traceID operation hrest traces none w1
  simp only [SetTraceOperation, hlist]
  refine ⟨hne, h1, ?_, ?_⟩
  · rw [h2]; simp
  · rw [h3]; simp [aggregatedErrors]

/-- Witness of C9: three replicas are listed; the patch of the first is
rejected with `conflict`, the second succeeds, the third is rejected with
`server timeout`. All three patch requests are issued and the returned error
gathers the two failures. -/
theorem SetTraceOperation_patches_all_witness :
    (SetTraceOperation sampleEnv "aaaaaaaaaaaaaaaa" "stop" patchWorld).2.requests =
      [Request.get "gadget" "traces" "global-trace-id=aaaaaaaaaaaaaaaa"] ++
        patchWorld.traces.map (fun t =>
          Request.patch t.ObjectMeta.Namespace "traces" t.ObjectMeta.Name
            { Annotations := [(GADGET_OPERATION, "stop")] }) ∧
    aggregatedErrors (SetTraceOperation sampleEnv "aaaaaaaaaaaaaaaa" "stop" patchWorld).1 =
      [some (GoError.new "conflict"), none, some (GoError.new "server timeout")].filterMap id :=
  have h := SetTraceOperation_patches_all sampleEnv "aaaaaaaaaaaaaaaa" "stop" patchWorld
    (getTraceListFromID sampleEnv "aaaaaaaaaaaaaaaa" patchWorld).2 patchWorld.traces rfl
  ⟨h.2.1, h.2.2.2⟩

/-- C10 (as amended): `DeleteTrace` returns exactly what the set-up of the REST
client returns: `nil` whenever the client is set up, whatever the trace ID, the
stored replicas and the outcome of the deletion request (a rejected deletion is
only printed to standard error), and the set-up error otherwise, in which case
no request is issued. -/
theorem DeleteTrace_error_is_setup_error (env : Env) (traceID : String) (w : World) :
    (DeleteTrace env traceID w).1 = getRestClient env ∧
    (getRestClient env = none →
      (DeleteTrace env traceID w).2.requests =
        w.requests ++ [Request.delete "gadget" "traces" (GLOBAL_TRACE_ID ++ "=" ++ traceID)]) ∧
    (getRestClient env ≠ none → (DeleteTrace env traceID w).2 = w) := by
  unfold DeleteTrace
  cases hrest : getRestClient env with
  | some e => simp
  | none => simp [deleteTraces_requests]

/-- Witness of C10 (as amended): the client is set up and the deletion request
is rejected; `DeleteTrace` returns `nil`, the replica stays and the rejection
is printed to standard error. -/
theorem DeleteTrace_error_is_setup_error_witness :
    (DeleteTrace sampleEnv "aaaaaaaaaaaaaaaa" rejectNextWorld).1 = none ∧
    (DeleteTrace sampleEnv "aaaaaaaaaaaaaaaa" rejectNextWorld).2.traces =
      [sampleSnapshot "Started" "" ""] ∧
    (DeleteTrace sampleEnv "aaaaaaaaaaaaaaaa" rejectNextWorld).2.stderr.length = 1 :=
  ⟨(DeleteTrace_error_is_setup_error sampleEnv "aaaaaaaaaaaaaaaa" rejectNextWorld).1, rfl, rfl⟩

/-- Counterexample to C10 as stated: when `kubeRestConfig` fails, `DeleteTrace`
returns the set-up error to its caller. -/
theorem DeleteTrace_returns_setup_error :
    (DeleteTrace brokenEnv "aaaaaaaaaaaaaaaa" emptyWorld).1 =
      some (.errorf "Error while getting rest config: %w"
        [.err (some (.new "no kubeconfig"))]) :=
  rfl

/-! ## Result Aggregator -/

/-- The loop of `waitForOutput` on a non-empty list first does what it does on
the first replica alone, stops there on an error, and otherwise goes on with
the other replicas. -/
theorem waitForOutputLoop_cons (env : Env) (expectedState : String) (t : Trace)
    (rest returnedTraces : List Trace) (w : World) :
    waitForOutputLoop env expectedState (t :: rest) returnedTraces w =
      match waitForOutputLoop env expectedState [t] [] w with
      | (.error err, w1) => (.error err, w1)
      | (.ok snapshots, w1) =>
        waitForOutputLoop env expectedState rest (returnedTraces ++ snapshots) w1 := by
  rcases hw : watchTrace env t.ObjectMeta.Name w with ⟨⟨watcher, err⟩, w1⟩
  cases err with
  | some e => simp [waitForOutputLoop, hw]
  | none =>
    rcases hu : UntilWithoutRetry watcher (waitCondition none expectedState) w1 with ⟨r, w2⟩
    cases r with
    | error e => simp [waitForOutputLoop, hw, hu]
    | ok ev =>
      cases hm : mapToTrace ev.object with
      | error e => simp [waitForOutputLoop, hw, hu, hm]
      | ok trace => simp [waitForOutputLoop, hw, hu, hm]

/-- The condition of the wait issues no request. -/
theorem waitCondition_requests (err : Option GoError) (expectedState : String) (event : Event)
    (w : World) : (waitCondition err expectedState event w).2.requests = w.requests := by
  unfold waitCondition
  split_ifs
  · rfl
  · rfl
  · split
    · rfl
    · split_ifs <;> rfl

/-- A wait issues no request. -/
theorem UntilWithoutRetryLoop_requests (closed : Bool) (err : Option GoError)
    (expectedState : String) :
    ∀ (events : List Event) (w : World),
      (UntilWithoutRetryLoop closed (waitCondition err expectedState) events w).2.requests =
        w.requests := by
  intro events
  induction events with
  | nil => intro w; rfl
  | cons ev rest ih =>
    intro w
    have hreq := waitCondition_requests err expectedState ev w
    rcases hc : waitCondition err expectedState ev w with ⟨⟨done, e⟩, w1⟩
    rw [hc] at hreq
    cases e with
    | some e1 => simpa [UntilWithoutRetryLoop, hc] using hreq
    | none =>
      cases done with
      | true => simpa [UntilWithoutRetryLoop, hc] using hreq
      | false =>
        simp only [UntilWithoutRetryLoop, hc]
        rw [ih w1]
        exact hreq

/-- With the dynamic client set up, the wait on one replica opens exactly one
watch, on that replica, whatever its outcome; a successful wait returns one
snapshot. -/
theorem waitForOutputLoop_single (env : Env) (expectedState : String) (t : Trace) (w : World) :
    (getDynamicClient env = none →
      (waitForOutputLoop env expectedState [t] [] w).2.requests =
        w.requests ++ [Request.watch "gadget" t.ObjectMeta.Name]) ∧
    (∀ snapshots, (waitForOutputLoop env expectedState [t] [] w).1 = .ok snapshots →
      snapshots.length = 1 ∧ getDynamicClient env = none) := by
  constructor
  · intro hdyn
    have hreq : ∀ (watcher : Watcher) (w0 : World),
        (UntilWithoutRetry watcher (waitCondition none expectedState) w0).2.requests =
          w0.requests := fun watcher w0 =>
      UntilWithoutRetryLoop_requests watcher.closed none expectedState watcher.events w0
    cases hwatch : env.Watch t.ObjectMeta.Name with
    | error e => simp [waitForOutputLoop, watchTrace, hdyn, hwatch]
    | ok watcher =>
      have h1 := hreq watcher
        { w with requests := w.requests ++ [Request.watch "gadget" t.ObjectMeta.Name] }
      rcases hu : UntilWithoutRetry watcher (waitCondition none expectedState)
        { w with requests := w.requests ++ [Request.watch "gadget" t.ObjectMeta.Name] }
        with ⟨r, w2⟩
      rw [hu] at h1
      cases r with
      | error e => simpa [waitForOutputLoop, watchTrace, hdyn, hwatch, hu] using h1
      | ok ev =>
        cases hm : mapToTrace ev.object with
        | error e => simpa [waitForOutputLoop, watchTrace, hdyn, hwatch, hu, hm] using h1
        | ok trace => simpa [waitForOutputLoop, watchTrace, hdyn, hwatch, hu, hm] using h1
  · intro snapshots hok
    cases hdyn : getDynamicClient env with
    | some e => simp [waitForOutputLoop, watchTrace, hdyn] at hok
    | none =>
      refine ⟨?_, rfl⟩
      cases hwatch : env.Watch t.ObjectMeta.Name with
      | error e => simp [waitForOutputLoop, watchTrace, hdyn, hwatch] at hok
      | ok watcher =>
        rcases hu : UntilWithoutRetry watcher (waitCondition none expectedState)
          { w with requests := w.requests ++ [Request.watch "gadget" t.ObjectMeta.Name] }
          with ⟨r, w2⟩
        cases r with
        | error e => simp [waitForOutputLoop, watchTrace, hdyn, hwatch, hu] at hok
        | ok ev =>
          cases hm : mapToTrace ev.object with
          | error e => simp [waitForOutputLoop, watchTrace, hdyn, hwatch, hu, hm] at hok
          | ok trace =>
            simp [waitForOutputLoop, watchTrace, hdyn, hwatch, hu, hm] at hok
            rw [← hok]
            rfl

/-- When the waits on the replicas of `pre` all succeed, the loop of
`waitForOutput` on `pre ++ rest` goes on with `rest`, having gathered one
snapshot per replica of `pre` and opened one watch per replica of `pre`, in
order. -/
theorem waitForOutputLoop_waitsInTurn (env : Env) (expectedState : String) (rest : List Trace) :
    ∀ (pre returnedTraces snapshots : List Trace) (w w2 : World),
      waitsInTurn env expectedState pre w = some (snapshots, w2) →
      waitForOutputLoop env expectedState (pre ++ rest) returnedTraces w =
        waitForOutputLoop env expectedState rest (returnedTraces ++ snapshots) w2 ∧
      snapshots.length = pre.length ∧
      w2.requests = w.requests ++ pre.map (fun r => Request.watch "gadget" r.ObjectMeta.Name) := by
  intro pre
  induction pre with
  | nil =>
    intro returnedTraces snapshots w w2 h
    simp only [waitsInTurn, Option.some.injEq, Prod.mk.injEq] at h
    obtain ⟨rfl, rfl⟩ := h
    simp
  | cons t pre ih =>
    intro returnedTraces snapshots w w2 h
    obtain ⟨hreq, hlen⟩ := waitForOutputLoop_single env expectedState t w
    rcases hs : waitForOutputLoop env expectedState [t] [] w with ⟨r, w1⟩
    rw [hs] at hreq hlen
    cases r with
    | error e => simp [waitsInTurn, hs] at h
    | ok first =>
      obtain ⟨hone, hdyn⟩ := hlen first rfl
      cases hrec : waitsInTurn env expectedState pre w1 with
      | none => simp [waitsInTurn, hs, hrec] at h
      | some p =>
        obtain ⟨more, w3⟩ := p
        simp only [waitsInTurn, hs, hrec, Option.some.injEq, Prod.mk.injEq] at h
        obtain ⟨rfl, rfl⟩ := h
        obtain ⟨h1, h2, h3⟩ := ih (returnedTraces ++ first) more w1 w3 hrec
        refine ⟨?_, ?_, ?_⟩
        · rw [List.cons_append, waitForOutputLoop_cons, hs]
          simp only
          rw [h1, List.append_assoc]
        · simp [hone, h2]; omega
        · rw [h3, hreq hdyn]
          simp

/-- When the waits in turn do not all succeed, there is a first replica whose
wait fails, the waits on the replicas before it having succeeded. -/
theorem waitsInTurn_eq_none (env : Env) (expectedState : String) :
    ∀ (traces : List Trace) (w : World), waitsInTurn env expectedState traces w = none →
      ∃ pre t post snapshots w2 e w3, traces = pre ++ t :: post ∧
        waitsInTurn env expectedState pre w = some (snapshots, w2) ∧
        waitForOutputLoop env expectedState [t] [] w2 = (.error e, w3) := by
  intro traces
  induction traces with
  | nil => intro w h; simp [waitsInTurn] at h
  | cons t rest ih =>
    intro w h
    rcases hs : waitForOutputLoop env expectedState [t] [] w with ⟨r, w1⟩
    cases r with
    | error e => exact ⟨[], t, rest, [], w, e, w1, rfl, rfl, hs⟩
    | ok first =>
      cases hrec : waitsInTurn env expectedState rest w1 with
      | some p => simp [waitsInTurn, hs, hrec] at h
      | none =>
        obtain ⟨pre, t1, post, snapshots, w2, e, w3, hsplit, hpre, hfail⟩ := ih w1 hrec
        refine ⟨t :: pre, t1, post, first ++ snapshots, w2, e, w3, ?_, ?_, hfail⟩
        · rw [hsplit]; rfl
        · simp [waitsInTurn, hs, hpre]

/-- C11: `waitForOutput` waits on the listed replicas one at a time, in listing
order. When the wait on a replica fails (the waits on the replicas before it
having succeeded), it returns that error, without any snapshot, in the world
left by the failed wait: it has opened a watch on the replicas up to the
failing one and on no replica after it. When every wait succeeds, it returns
the snapshots of the waits, one per replica, in listing order. One of the two
cases always applies. -/
theorem waitForOutput_in_listing_order (env : Env) (traceID expectedState : String)
    (w w1 : World) (traces : List Trace)
    (hlist : getTraceListFromID env traceID w = (.ok traces, w1)) :
    (∀ pre t post snapshots w2 e w3, traces = pre ++ t :: post →
      waitsInTurn env expectedState pre w1 = some (snapshots, w2) →
      waitForOutputLoop env expectedState [t] [] w2 = (.error e, w3) →
      waitForOutput env traceID expectedState w = (.error e, w3) ∧
      (getDynamicClient env = none →
        w3.requests = w1.requests ++
          (pre ++ [t]).map (fun r => Request.watch "gadget" r.ObjectMeta.Name))) ∧
    (∀ snapshots w2, waitsInTurn env expectedState traces w1 = some (snapshots, w2) →
      waitForOutput env traceID expectedState w = (.ok snapshots, w2) ∧
      snapshots.length = traces.length ∧
      w2.requests = w1.requests ++
        traces.map (fun r => Request.watch "gadget" r.ObjectMeta.Name)) ∧
    (waitsInTurn env expectedState traces w1 = none →
      ∃ pre t post snapshots w2 e w3, traces = pre ++ t :: post ∧
        waitsInTurn env expectedState pre w1 = some (snapshots, w2) ∧
        waitForOutputLoop env expectedState [t] [] w2 = (.error e, w3)) := by
  refine ⟨?_, ?_, waitsInTurn_eq_none env expectedState traces w1⟩
  · intro pre t post snapshots w2 e w3 hsplit hpre hfail
    obtain ⟨h1, -, h3⟩ :=
      waitForOutputLoop_waitsInTurn env expectedState (t :: post) pre [] snapshots w1 w2 hpre
    refine ⟨?_, fun hdyn => ?_⟩
    · simp only [waitForOutput, hlist, hsplit]
      rw [h1, waitForOutputLoop_cons, hfail]
    · have hreq := (waitForOutputLoop_single env expectedState t w2).1 hdyn
      rw [hfail] at hreq
      simp only at hreq
      rw [hreq, h3]
      simp
  · intro snapshots w2 hall
    obtain ⟨h1, h2, h3⟩ :=
      waitForOutputLoop_waitsInTurn env expectedState [] traces [] snapshots w1 w2 hall
    refine ⟨?_, h2, h3⟩
    simp only [waitForOutput, hlist]
    rw [← List.append_nil traces, h1]
    simp [waitForOutputLoop]

/-- Witness of C11: three replicas are listed; the wait on `seccomp-1`
succeeds and the wait on `seccomp-2` fails with the operation error `boom`.
`waitForOutput` returns that error and has opened no watch on `seccomp-3`. -/
theorem waitForOutput_in_listing_order_witness :
    (waitForOutput failSecondWatchEnv "aaaaaaaaaaaaaaaa" "Stopped" threeReplicaWorld).1 =
      .error (.new "boom") ∧
    (waitForOutput failSecondWatchEnv "aaaaaaaaaaaaaaaa" "Stopped" threeReplicaWorld).2.requests =
      [Request.get "gadget" "traces" "global-trace-id=aaaaaaaaaaaaaaaa",
        Request.watch "gadget" "seccomp-1", Request.watch "gadget" "seccomp-2"] :=
  have h := (waitForOutput_in_listing_order failSecondWatchEnv "aaaaaaaaaaaaaaaa" "Stopped"
    threeReplicaWorld
    (getTraceListFromID failSecondWatchEnv "aaaaaaaaaaaaaaaa" threeReplicaWorld).2
    threeReplicaWorld.traces rfl).1
    (threeReplicaWorld.traces.take 1) (threeReplicaWorld.traces.get ⟨1, by decide⟩)
    (threeReplicaWorld.traces.drop 2) [sampleSnapshot "Stopped" "" ""]
    (waitForOutputLoop failSecondWatchEnv "Stopped" (threeReplicaWorld.traces.take 1) []
      (getTraceListFromID failSecondWatchEnv "aaaaaaaaaaaaaaaa" threeReplicaWorld).2).2
    (.new "boom")
    (waitForOutput failSecondWatchEnv "aaaaaaaaaaaaaaaa" "Stopped" threeReplicaWorld).2
    rfl rfl rfl
  ⟨congrArg Prod.fst h.1, rfl⟩

/-- C12: on an Added or Modified notification whose decoded status has a
non-empty operationWarning (whatever its operationError, empty in particular),
the condition writes the warning to standard error and returns neither done nor
an error; the wait goes on with the notifications that follow. -/
theorem waitCondition_operationWarning (err : Option GoError) (expectedState : String)
    (event : Event) (w : World) (trace : Trace)
    (htype : event.type = .Added ∨ event.type = .Modified)
    (hdecode : mapToTrace event.object = .ok trace)
    (hwarning : trace.Status.OperationWarning ≠ "") :
    waitCondition err expectedState event w =
      ((false, none),
        { w with stderr := w.stderr ++ [⟨trace.Status.OperationWarning, []⟩] }) ∧
    ∀ (closed : Bool) (rest : List Event),
      UntilWithoutRetryLoop closed (waitCondition err expectedState) (event :: rest) w =
        UntilWithoutRetryLoop closed (waitCondition err expectedState) rest
          { w with stderr := w.stderr ++ [⟨trace.Status.OperationWarning, []⟩] } := by
  have hcond : waitCondition err expectedState event w =
      ((false, none),
        { w with stderr := w.stderr ++ [⟨trace.Status.OperationWarning, []⟩] }) := by
    unfold waitCondition
    rcases htype with h | h <;> simp [h, hdecode, hwarning]
  refine ⟨hcond, fun closed rest => ?_⟩
  rw [UntilWithoutRetryLoop, hcond]

/-- Witness of C12: a Modified notification carrying the warning `careful` and
no error, followed by one in the expected state: the warning is printed and
the wait succeeds on the second notification. -/
theorem waitCondition_operationWarning_witness :
    (waitCondition none "Stopped" (sampleEvent .Modified "Started" "careful" "")
      emptyWorld).1 = (false, none) ∧
    (UntilWithoutRetryLoop false (waitCondition none "Stopped")
      [sampleEvent .Modified "Started" "careful" "", sampleEvent .Modified "Stopped" "" ""]
      emptyWorld).2.stderr = [⟨"careful", []⟩] :=
  have h := waitCondition_operationWarning none "Stopped"
    (sampleEvent .Modified "Started" "careful" "") emptyWorld
    (sampleSnapshot "Started" "careful" "") (Or.inr rfl) rfl (by decide)
  ⟨congrArg Prod.fst h.1,
    (congrArg (fun r => r.2.stderr)
      (h.2 false [sampleEvent .Modified "Stopped" "" ""])).trans rfl⟩

/-- Once the local variable holds a non-empty value, the loop of
`getIdenticalValue` returns it when every remaining entry holds it. -/
theorem getIdenticalValueLoop_same (value : String) (hvalue : value ≠ "") :
    ∀ m : List (String × String), (∀ e ∈ m, e.2 = value) →
      getIdenticalValueLoop m value = value := by
  intro m
  induction m with
  | nil => intro _; rfl
  | cons e rest ih =>
    intro h
    obtain ⟨k, v⟩ := e
    have hv : v = value := h (k, v) (List.mem_cons_self _ _)
    subst hv
    rw [getIdenticalValueLoop, if_neg hvalue, if_neg (by simp)]
    exact ih (fun e he => h e (List.mem_cons_of_mem _ he))

/-- Once the local variable holds a non-empty value, the loop of
`getIdenticalValue` returns the empty string when some remaining entry holds
another value. -/
theorem getIdenticalValueLoop_differ (value : String) (hvalue : value ≠ "") :
    ∀ m : List (String × String), (∃ e ∈ m, e.2 ≠ value) →
      getIdenticalValueLoop m value = "" := by
  intro m
  induction m with
  | nil => rintro ⟨e, he, _⟩; simp at he
  | cons e rest ih =>
    rintro ⟨d, hd, hne⟩
    obtain ⟨k, v⟩ := e
    rw [getIdenticalValueLoop, if_neg hvalue]
    by_cases hv : value = v
    · rw [if_neg (by simpa using hv)]
      apply ih
      rcases List.mem_cons.mp hd with rfl | hmem
      · exact absurd hv.symm hne
      · exact ⟨d, hmem, hne⟩
    · rw [if_pos hv]

/-- On a map whose messages are all empty `getIdenticalValue` returns the empty
string. -/
theorem getIdenticalValueLoop_empty :
    ∀ m : List (String × String), (∀ e ∈ m, e.2 = "") → getIdenticalValueLoop m "" = "" := by
  intro m
  induction m with
  | nil => intro _; rfl
  | cons e rest ih =>
    intro h
    obtain ⟨k, v⟩ := e
    have hv : v = "" := h (k, v) (List.mem_cons_self _ _)
    subst hv
    rw [getIdenticalValueLoop, if_pos rfl]
    exact ih (fun e he => h e (List.mem_cons_of_mem _ he))

/-- `getIdenticalValue` on a non-empty map whose messages are all the non-empty
`v`. -/
theorem getIdenticalValue_same (m : List (String × String)) (v : String) (hv : v ≠ "")
    (hm : m ≠ []) (hall : ∀ e ∈ m, e.2 = v) : getIdenticalValue m = v := by
  cases m with
  | nil => exact absurd rfl hm
  | cons e rest =>
    obtain ⟨k, v0⟩ := e
    have h0 : v0 = v := hall (k, v0) (List.mem_cons_self _ _)
    subst h0
    rw [getIdenticalValue, getIdenticalValueLoop, if_pos rfl]
    exact getIdenticalValueLoop_same v0 hv rest (fun e he => hall e (List.mem_cons_of_mem _ he))

/-- `getIdenticalValue` on a map without empty message, two of whose messages
differ. -/
theorem getIdenticalValue_differ (m : List (String × String))
    (hnonempty : ∀ e ∈ m, e.2 ≠ "") (hdiffer : ¬ ∃ v, ∀ e ∈ m, e.2 = v) :
    getIdenticalValue m = "" := by
  cases m with
  | nil => rfl
  | cons e rest =>
    obtain ⟨k, v0⟩ := e
    have h0 : v0 ≠ "" := hnonempty (k, v0) (List.mem_cons_self _ _)
    rw [getIdenticalValue, getIdenticalValueLoop, if_pos rfl]
    apply getIdenticalValueLoop_differ v0 h0
    by_contra hcon
    apply hdiffer
    refine ⟨v0, fun e he => ?_⟩
    rcases List.mem_cons.mp he with rfl | hmem
    · rfl
    · by_contra hne
      exact hcon ⟨e, hmem, hne⟩

/-- When every message of the map is empty `printTraceFeedback` prints one line
per entry, in the order of its own loop, however many entries there are. -/
theorem printTraceFeedback_all_empty (m perNode : List (String × String))
    (hall : ∀ e ∈ m, e.2 = "") : printTraceFeedback m perNode = perNodeFeedback perNode := by
  have hval : getIdenticalValue m = "" := getIdenticalValueLoop_empty m hall
  simp [printTraceFeedback, perNodeFeedback, hval]

/-- What `printTraceFeedback` does on a map none of whose messages is empty,
whatever the two iteration orders: it calls the print function exactly once,
with the format for all nodes and the shared message, when the map has more
than one entry and all entries hold the same message, and otherwise once per
entry, with the node name and message of the entry. -/
theorem printTraceFeedback_without_empty_message (m perNode : List (String × String))
    (hperm : perNode.Perm m) (hnonempty : ∀ e ∈ m, e.2 ≠ "") :
    (∀ v, m.length > 1 → (∀ e ∈ m, e.2 = v) →
      printTraceFeedback m perNode =
        [⟨"Failed to run the gadget on all nodes: %s", [.str v]⟩]) ∧
    (m.length ≤ 1 → printTraceFeedback m perNode = perNodeFeedback perNode) ∧
    ((¬ ∃ v, ∀ e ∈ m, e.2 = v) → printTraceFeedback m perNode = perNodeFeedback perNode) ∧
    (perNodeFeedback perNode).length = m.length ∧
    (∀ e, e ∈ perNode ↔ e ∈ m) := by
  refine ⟨?_, ?_, ?_, ?_, ?_⟩
  · intro v hlen hall
    have hm : m ≠ [] := by
      rintro rfl
      simp at hlen
    have hv : v ≠ "" := by
      cases m with
      | nil => exact absurd rfl hm
      | cons e rest =>
        have h1 := hall e (List.mem_cons_self _ _)
        have h2 := hnonempty e (List.mem_cons_self _ _)
        rw [h1] at h2
        exact h2
    have hval := getIdenticalValue_same m v hv hm hall
    simp [printTraceFeedback, hlen, hval, hv]
  · intro hlen
    have : ¬ m.length > 1 := by omega
    simp [printTraceFeedback, perNodeFeedback, this]
  · intro hdiffer
    have hval := getIdenticalValue_differ m hnonempty hdiffer
    simp [printTraceFeedback, perNodeFeedback, hval]
  · simp [perNodeFeedback, hperm.length_eq]
  · intro e
    exact hperm.mem_iff

/-- On the map `{node-a: "", node-b: "boom"}`, whose two messages differ, what
`printTraceFeedback` prints depends on the order of the two ranges: the single
line for all nodes when `getIdenticalValue` visits `node-a` first, one line per
node, in the order of the final loop, when it visits `node-b` first. -/
theorem printTraceFeedback_mixed_map_depends_on_order :
    (∀ perNode, printTraceFeedback [("node-a", ""), ("node-b", "boom")] perNode =
      [⟨"Failed to run the gadget on all nodes: %s", [.str "boom"]⟩]) ∧
    printTraceFeedback [("node-b", "boom"), ("node-a", "")]
        [("node-a", ""), ("node-b", "boom")] =
      [⟨"Failed to run the gadget on node %q: %s", [.str "node-a", .str ""]⟩,
       ⟨"Failed to run the gadget on node %q: %s", [.str "node-b", .str "boom"]⟩] ∧
    printTraceFeedback [("node-b", "boom"), ("node-a", "")]
        [("node-b", "boom"), ("node-a", "")] =
      [⟨"Failed to run the gadget on node %q: %s", [.str "node-b", .str "boom"]⟩,
       ⟨"Failed to run the gadget on node %q: %s", [.str "node-a", .str ""]⟩] :=
  ⟨fun _ => rfl, rfl, rfl⟩

/-- C13, the code at the failing input: the map `{node-a: "", node-b: ""}`,
which has more than one entry, all holding exactly the same message. Whatever
the order of the two ranges, `getIdenticalValue` returns its answer for
differing values, the empty string, and the print function is called twice,
once per entry with the format for one node, instead of once with the format
for all nodes. -/
theorem printTraceFeedback_same_empty_message :
    getIdenticalValue [("node-a", ""), ("node-b", "")] = "" ∧
    getIdenticalValue [("node-b", ""), ("node-a", "")] = "" ∧
    printTraceFeedback [("node-a", ""), ("node-b", "")] [("node-a", ""), ("node-b", "")] =
      [⟨"Failed to run the gadget on node %q: %s", [.str "node-a", .str ""]⟩,
       ⟨"Failed to run the gadget on node %q: %s", [.str "node-b", .str ""]⟩] ∧
    printTraceFeedback [("node-a", ""), ("node-b", "")] [("node-b", ""), ("node-a", "")] =
      [⟨"Failed to run the gadget on node %q: %s", [.str "node-b", .str ""]⟩,
       ⟨"Failed to run the gadget on node %q: %s", [.str "node-a", .str ""]⟩] ∧
    printTraceFeedback [("node-b", ""), ("node-a", "")] [("node-a", ""), ("node-b", "")] =
      [⟨"Failed to run the gadget on node %q: %s", [.str "node-a", .str ""]⟩,
       ⟨"Failed to run the gadget on node %q: %s", [.str "node-b", .str ""]⟩] ∧
    printTraceFeedback [("node-b", ""), ("node-a", "")] [("node-b", ""), ("node-a", "")] =
      [⟨"Failed to run the gadget on node %q: %s", [.str "node-b", .str ""]⟩,
       ⟨"Failed to run the gadget on node %q: %s", [.str "node-a", .str ""]⟩] :=
  ⟨rfl, rfl, rfl, rfl, rfl, rfl⟩

/-- C14 (as amended): when the map has more than one entry and every node
reports the identical non-empty string, `printTraceFeedback` prints one line
and that string is an operand of the printed lines exactly once, whatever the
order in which its own loop would visit the entries. -/
theorem printTraceFeedback_collapses_shared_message (m perNode : List (String × String))
    (v : String) (hlen : m.length > 1) (hv : v ≠ "") (hall : ∀ e ∈ m, e.2 = v) :
    (printTraceFeedback m perNode).length = 1 ∧
      occurrences v (printTraceFeedback m perNode) = 1 := by
  have hm : m ≠ [] := by
    rintro rfl
    simp at hlen
  have hval := getIdenticalValue_same m v hv hm hall
  have hcalls : printTraceFeedback m perNode =
      [⟨"Failed to run the gadget on all nodes: %s", [.str v]⟩] := by
    simp [printTraceFeedback, hlen, hval, hv]
  rw [hcalls]
  simp [occurrences, GoArg.isStr]

/-- Witness of C14 (as amended): three nodes reporting `no BTF`, the loop of
`getIdenticalValue` and the final loop visiting them in different orders. -/
theorem printTraceFeedback_collapses_shared_message_witness :
    occurrences "no BTF"
      (printTraceFeedback [("node-a", "no BTF"), ("node-b", "no BTF"), ("node-c", "no BTF")]
        [("node-c", "no BTF"), ("node-a", "no BTF"), ("node-b", "no BTF")]) =
      1 :=
  (printTraceFeedback_collapses_shared_message
    [("node-a", "no BTF"), ("node-b", "no BTF"), ("node-c", "no BTF")]
    [("node-c", "no BTF"), ("node-a", "no BTF"), ("node-b", "no BTF")] "no BTF"
    (by decide) (by decide) (by decide)).2

/-- Counterexample to C14 as stated: two of three nodes report the identical
string `no BTF`, the third another one. One line per node is printed and the
string occurs twice, be the entries visited in the same order by both ranges
or in opposite orders. -/
theorem printTraceFeedback_repeats_partly_shared_message :
    (printTraceFeedback
      [("node-a", "no BTF"), ("node-b", "no BTF"), ("node-c", "timeout")]
      [("node-a", "no BTF"), ("node-b", "no BTF"), ("node-c", "timeout")]).length = 3 ∧
    occurrences "no BTF" (printTraceFeedback
      [("node-a", "no BTF"), ("node-b", "no BTF"), ("node-c", "timeout")]
      [("node-a", "no BTF"), ("node-b", "no BTF"), ("node-c", "timeout")]) = 2 ∧
    (printTraceFeedback
      [("node-c", "timeout"), ("node-b", "no BTF"), ("node-a", "no BTF")]
      [("node-a", "no BTF"), ("node-b", "no BTF"), ("node-c", "timeout")]).length = 3 ∧
    occurrences "no BTF" (printTraceFeedback
      [("node-c", "timeout"), ("node-b", "no BTF"), ("node-a", "no BTF")]
      [("node-a", "no BTF"), ("node-b", "no BTF"), ("node-c", "timeout")]) = 2 :=
  ⟨rfl, rfl, rfl, rfl⟩

/-! ## Stream Multiplexer -/

/-- A value of the range of `int32` is left as it is. -/
theorem int32_of_range (x : Int) (h0 : -2147483648 ≤ x) (h1 : x < 2147483648) :
    int32 x = x := by
  unfold int32
  omega

/-- While fewer completion messages than the counter have been received, the
loop consumes them, printing each and decrementing the counter, and goes on
with the events that follow. -/
theorem genericStreamsDisplayLoop_completions (params : CommonFlags)
    (tail : List SelectEvent) :
    ∀ (msgs : List Printf) (c : Int) (w : World),
      (msgs.length : Int) < c → c < 2147483648 →
      genericStreamsDisplayLoop params (msgs.map SelectEvent.completion ++ tail) c w =
        genericStreamsDisplayLoop params tail (c - msgs.length)
          { w with stdout := w.stdout ++ msgs } := by
  intro msgs
  induction msgs with
  | nil =>
    intro c w _ _
    simp
  | cons msg msgs ih =>
    intro c w hlen hc
    simp only [List.length_cons, Nat.cast_add, Nat.cast_one] at hlen
    have hnonneg : (0 : Int) ≤ (msgs.length : Int) := Int.ofNat_nonneg _
    have h32 : int32 (c - 1) = c - 1 := int32_of_range _ (by omega) (by omega)
    have hne : c - 1 ≠ 0 := by omega
    have hstep := ih (c - 1) { w with stdout := w.stdout ++ [msg] } (by omega) (by omega)
    rw [List.map_cons, List.cons_append, genericStreamsDisplayLoop]
    simp only [h32, hne, if_false]
    refine hstep.trans ?_
    simp only [List.length_cons, Nat.cast_add, Nat.cast_one, List.append_assoc,
      List.singleton_append]
    congr 1
    omega

/-- C15: the loop of `genericStreamsDisplay`, started with `n` outstanding
readers (`n` at least 1, and in the range of the `int32` counter). On a signal
received after fewer than `n` completions it returns `nil` at once and leaves
the later events unconsumed. After fewer than `n` completions and nothing else
it has not returned. When `n` completions have been received it returns `nil`,
on the `n`-th, and leaves the later events unconsumed. In each case the counter
is `n` minus the number of completions consumed. -/
theorem genericStreamsDisplayLoop_exit (params : CommonFlags) (n : Nat) (w : World)
    (_hn : 1 ≤ n) (hrange : n < 2147483648) :
    (∀ (msgs : List Printf) (rest : List SelectEvent), msgs.length < n →
      (genericStreamsDisplayLoop params
        (msgs.map SelectEvent.completion ++ SelectEvent.sigs :: rest) n w).returned =
          some none ∧
      (genericStreamsDisplayLoop params
        (msgs.map SelectEvent.completion ++ SelectEvent.sigs :: rest) n w).pending = rest ∧
      (genericStreamsDisplayLoop params
        (msgs.map SelectEvent.completion ++ SelectEvent.sigs :: rest) n w).streamCount =
          (n : Int) - msgs.length) ∧
    (∀ (msgs : List Printf), msgs.length < n →
      (genericStreamsDisplayLoop params (msgs.map SelectEvent.completion) n w).returned =
        none ∧
      (genericStreamsDisplayLoop params (msgs.map SelectEvent.completion) n w).streamCount =
        (n : Int) - msgs.length) ∧
    (∀ (msgs : List Printf) (last : Printf) (rest : List SelectEvent), msgs.length + 1 = n →
      (genericStreamsDisplayLoop params
        (msgs.map SelectEvent.completion ++ SelectEvent.completion last :: rest) n w).returned =
          some none ∧
      (genericStreamsDisplayLoop params
        (msgs.map SelectEvent.completion ++ SelectEvent.completion last :: rest) n w).pending =
          rest ∧
      (genericStreamsDisplayLoop params
        (msgs.map SelectEvent.completion ++ SelectEvent.completion last :: rest) n w).streamCount =
          0 ∧
      (genericStreamsDisplayLoop params
        (msgs.map SelectEvent.completion ++ SelectEvent.completion last :: rest)
          n w).world.stdout = w.stdout ++ msgs ++ [last]) := by
  have hcast : ((n : Nat) : Int) < 2147483648 := by exact_mod_cast hrange
  refine ⟨?_, ?_, ?_⟩
  · intro msgs rest hlen
    have hlt : (msgs.length : Int) < (n : Int) := by exact_mod_cast hlen
    rw [genericStreamsDisplayLoop_completions params _ msgs n w hlt hcast]
    simp [genericStreamsDisplayLoop]
  · intro msgs hlen
    have hlt : (msgs.length : Int) < (n : Int) := by exact_mod_cast hlen
    have h := genericStreamsDisplayLoop_completions params [] msgs n w hlt hcast
    rw [List.append_nil] at h
    rw [h]
    simp [genericStreamsDisplayLoop]
  · intro msgs last rest hlen
    have hlt : (msgs.length : Int) < (n : Int) := by
      have : msgs.length < n := by omega
      exact_mod_cast this
    have hone : (n : Int) - msgs.length = 1 := by
      have : (n : Int) = (msgs.length : Int) + 1 := by exact_mod_cast hlen.symm
      omega
    rw [genericStreamsDisplayLoop_completions params _ msgs n w hlt hcast, hone]
    have h32 : int32 0 = 0 := by decide
    simp [genericStreamsDisplayLoop, h32]

/-- Witness of C15: two outstanding readers; the loop returns on the signal
that follows the first completion and leaves the second completion
unconsumed. -/
theorem genericStreamsDisplayLoop_exit_witness :
    (genericStreamsDisplayLoop sampleConfig.CommonFlags
      ([(⟨"Trace completed on node %s\n", [.str "node-a"]⟩ : Printf)].map SelectEvent.completion ++
        SelectEvent.sigs :: [SelectEvent.completion ⟨"Trace completed on node %s\n", [.str "node-b"]⟩])
      (2 : Nat) emptyWorld).returned = some none ∧
    (genericStreamsDisplayLoop sampleConfig.CommonFlags
      ([(⟨"Trace completed on node %s\n", [.str "node-a"]⟩ : Printf)].map SelectEvent.completion ++
        SelectEvent.sigs :: [SelectEvent.completion ⟨"Trace completed on node %s\n", [.str "node-b"]⟩])
      (2 : Nat) emptyWorld).streamCount = ((2 : Nat) : Int) - (1 : Nat) :=
  have h := (genericStreamsDisplayLoop_exit sampleConfig.CommonFlags 2 emptyWorld
    (by decide) (by decide)).1 [⟨"Trace completed on node %s\n", [.str "node-a"]⟩]
    [SelectEvent.completion ⟨"Trace completed on node %s\n", [.str "node-b"]⟩] (by decide)
  ⟨h.1, h.2.2⟩

/-- Whatever it is given, the loop of `genericStreamsDisplay` is blocked or has
returned `nil`: it never returns an error. -/
theorem genericStreamsDisplayLoop_returned (params : CommonFlags) :
    ∀ (events : List SelectEvent) (c : Int) (w : World),
      (genericStreamsDisplayLoop params events c w).returned = none ∨
      (genericStreamsDisplayLoop params events c w).returned = some none := by
  intro events
  induction events with
  | nil => intro c w; exact Or.inl rfl
  | cons ev rest ih =>
    intro c w
    cases ev with
    | sigs => exact Or.inr rfl
    | completion msg =>
      rw [genericStreamsDisplayLoop]
      split_ifs
      · exact Or.inr rfl
      · exact ih _ _

/-- The loop of `genericStreamsDisplay` returns `nil` when a signal is among
the events. -/
theorem genericStreamsDisplayLoop_signal (params : CommonFlags) :
    ∀ (events : List SelectEvent) (c : Int) (w : World), SelectEvent.sigs ∈ events →
      (genericStreamsDisplayLoop params events c w).returned = some none := by
  intro events
  induction events with
  | nil => intro c w h; simp at h
  | cons ev rest ih =>
    intro c w h
    cases ev with
    | sigs => rfl
    | completion msg =>
      have hrest : SelectEvent.sigs ∈ rest := by simpa using h
      rw [genericStreamsDisplayLoop]
      split_ifs
      · rfl
      · exact ih _ _ hrest

/-- The loop of `genericStreamsDisplay` returns `nil` when as many completion
messages as the counter says are among the events. -/
theorem genericStreamsDisplayLoop_all_completed (params : CommonFlags) :
    ∀ (events : List SelectEvent) (c : Int) (w : World),
      1 ≤ c → c < 2147483648 → c ≤ (completions events : Int) →
      (genericStreamsDisplayLoop params events c w).returned = some none := by
  intro events
  induction events with
  | nil =>
    intro c w h1 _ h
    simp [completions] at h
    omega
  | cons ev rest ih =>
    intro c w h1 h2 h
    cases ev with
    | sigs => rfl
    | completion msg =>
      have h32 : int32 (c - 1) = c - 1 := int32_of_range _ (by omega) (by omega)
      have hcount : (completions (SelectEvent.completion msg :: rest) : Int) =
          (completions rest : Int) + 1 := by
        simp [completions, SelectEvent.isCompletion]
      rw [genericStreamsDisplayLoop]
      simp only [h32]
      split_ifs with h0
      · rfl
      · exact ih _ _ (by omega) (by omega) (by omega)

/-- The loop that starts the readers: it starts one reader per streamed
replica, and the counter counts them as long as it stays in the range of
`int32`. -/
theorem genericStreamsDisplaySpawn_count (env : Env) (params : CommonFlags) :
    ∀ (results : List Trace) (index : Nat) (c : Int) (readers : List (List Printf)),
      (genericStreamsDisplaySpawn env params results index c readers).2.length =
        readers.length + (streamedReplicas params results).length ∧
      (0 ≤ c → c + ((streamedReplicas params results).length : Int) < 2147483648 →
        (genericStreamsDisplaySpawn env params results index c readers).1 =
          c + ((streamedReplicas params results).length : Int)) := by
  intro results
  induction results with
  | nil =>
    intro index c readers
    simp [genericStreamsDisplaySpawn, streamedReplicas]
  | cons i rest ih =>
    intro index c readers
    by_cases hskip : params.Node ≠ "" ∧ i.Spec.Node ≠ params.Node
    · have hnot : ¬ (params.Node = "" ∨ i.Spec.Node = params.Node) := by
        rcases hskip with ⟨h1, h2⟩
        rintro (h | h)
        · exact h1 h
        · exact h2 h
      have hsame : streamedReplicas params (i :: rest) = streamedReplicas params rest := by
        simp [streamedReplicas, List.filter_cons, hnot]
      rw [genericStreamsDisplaySpawn, if_pos hskip, hsame]
      exact ih _ _ _
    · have hyes : params.Node = "" ∨ i.Spec.Node = params.Node := by
        by_contra hcon
        exact hskip ⟨fun h => hcon (Or.inl h), fun h => hcon (Or.inr h)⟩
      have hcons : streamedReplicas params (i :: rest) = i :: streamedReplicas params rest := by
        simp [streamedReplicas, List.filter_cons, hyes]
      rw [genericStreamsDisplaySpawn, if_neg hskip, hcons]
      obtain ⟨h1, h2⟩ := ih (index + 1) (int32 (c + 1))
        (readers ++ [streamReader env i.Spec.Node i.ObjectMeta.Namespace i.ObjectMeta.Name index])
      refine ⟨?_, ?_⟩
      · rw [h1]
        simp only [List.length_append, List.length_cons, List.length_nil]
        omega
      · intro h0 hlt
        simp only [List.length_cons, Nat.cast_add, Nat.cast_one] at hlt ⊢
        have hnonneg : (0 : Int) ≤ ((streamedReplicas params rest).length : Int) :=
          Int.ofNat_nonneg _
        have h32 : int32 (c + 1) = c + 1 := int32_of_range _ (by omega) (by omega)
        rw [h32] at h2 ⊢
        rw [h2 (by omega) (by omega)]
        omega

/-- C16: once the cluster client is set up, a reader whose `ExecPod` returned
pushes exactly one message to the completion queue, the message
`Error running command on node ...` when `ExecPod` failed and
`Trace completed on node ...` when it did not; `genericStreamsDisplay` never
returns an error, whatever the readers report and in whatever order; and it
does return `nil` when a signal arrives, and when as many completions as there
are readers (at least one) have been received. -/
theorem genericStreamsDisplay_never_fails (env : Env) (params : CommonFlags)
    (results : List Trace) (schedule : List Arrival) (w : World)
    (hclient : env.NewClientsetFromConfigFlags = none) :
    (∀ (nodeName ns name : String) (index : Nat) (r : Option GoError),
      env.ExecPod nodeName
        ("exec gadgettracermanager -call receive-stream -tracerid trace_" ++ ns ++ "_" ++ name) =
          some r →
      streamReader env nodeName ns name index =
        [match r with
          | none => ⟨"Trace completed on node %s\n", [.str nodeName]⟩
          | some err =>
            ⟨"Error running command on node %s: %v\n", [.str nodeName, .err (some err)]⟩]) ∧
    (genericStreamsDisplaySpawn env params results 0 (int32 0) []).2.length =
      (streamedReplicas params results).length ∧
    ((genericStreamsDisplay env params results schedule w).1 = none ∨
      (genericStreamsDisplay env params results schedule w).1 = some none) ∧
    (SelectEvent.sigs ∈
        receive (genericStreamsDisplaySpawn env params results 0 (int32 0) []).2 schedule →
      (genericStreamsDisplay env params results schedule w).1 = some none) ∧
    (1 ≤ (streamedReplicas params results).length →
      (streamedReplicas params results).length < 2147483648 →
      (streamedReplicas params results).length ≤ completions
        (receive (genericStreamsDisplaySpawn env params results 0 (int32 0) []).2 schedule) →
      (genericStreamsDisplay env params results schedule w).1 = some none) := by
  obtain ⟨hlen, hcount⟩ := genericStreamsDisplaySpawn_count env params results 0 (int32 0) []
  have h0 : int32 0 = 0 := by decide
  refine ⟨?_, ?_, ?_, ?_, ?_⟩
  · intro nodeName ns name index r hexec
    unfold streamReader
    simp only [hexec]
    cases r <;> rfl
  · simpa using hlen
  · simp only [genericStreamsDisplay, hclient]
    exact genericStreamsDisplayLoop_returned params _ _ _
  · intro hsig
    simp only [genericStreamsDisplay, hclient]
    exact genericStreamsDisplayLoop_signal params _ _ _ hsig
  · intro h1 h2 hall
    simp only [genericStreamsDisplay, hclient]
    rw [h0] at hcount ⊢
    have hc := hcount (le_refl _) (by simpa using (by exact_mod_cast h2))
    rw [hc]
    apply genericStreamsDisplayLoop_all_completed
    · simpa using (by exact_mod_cast h1)
    · simpa using (by exact_mod_cast h2)
    · simpa using (by exact_mod_cast hall)

/-- Witness of C16: two readers; `ExecPod` fails on `node-b` and its message is
received first. `genericStreamsDisplay` returns `nil` after printing both
messages. -/
theorem genericStreamsDisplay_never_fails_witness :
    (genericStreamsDisplay execFailEnv sampleConfig.CommonFlags streamResults
      [.completion 1, .completion 0] emptyWorld).1 = some none ∧
    (genericStreamsDisplay execFailEnv sampleConfig.CommonFlags streamResults
      [.completion 1, .completion 0] emptyWorld).2.stdout =
      [⟨"Error running command on node %s: %v\n",
          [.str "node-b", .err (some (.new "connection reset"))]⟩,
        ⟨"Trace completed on node %s\n", [.str "node-a"]⟩] :=
  ⟨(genericStreamsDisplay_never_fails execFailEnv sampleConfig.CommonFlags streamResults
      [.completion 1, .completion 0] emptyWorld rfl).2.2.2.2 (by decide) (by decide)
      (by decide), rfl⟩

/-! ## Operation patch, run-and-print helpers -/

/-- A served patch leaves the spec, the status, the labels and the identity of
every stored replica as they were. -/
theorem World.Patch_frame (w : World) (ns resource name : String) (body : JSONMergePatch) :
    (w.Patch ns resource name body).2.traces.map (fun t => (t.Spec, t.Status)) =
      w.traces.map (fun t => (t.Spec, t.Status)) ∧
    (w.Patch ns resource name body).2.traces.map
        (fun t => (t.ObjectMeta.Name, t.ObjectMeta.Namespace, t.ObjectMeta.Labels)) =
      w.traces.map (fun t => (t.ObjectMeta.Name, t.ObjectMeta.Namespace, t.ObjectMeta.Labels)) := by
  unfold World.Patch World.serve
  cases w.faults.headD none with
  | some e => exact ⟨rfl, rfl⟩
  | none =>
    simp only
    split_ifs
    · constructor
      · simp only [List.map_map]
        apply List.map_congr_left
        intro t _
        simp only [Function.comp]
        split_ifs <;> rfl
      · simp only [List.map_map]
        apply List.map_congr_left
        intro t _
        simp only [Function.comp]
        split_ifs <;> rfl
    · exact ⟨rfl, rfl⟩

/-- C17: with the REST client set up, `updateTraceOperation` issues exactly one
request, a merge patch on the replica, whose body marshals to the JSON object
holding `metadata.annotations` with the single key `gadget.kinvolk.io/operation`
mapped to the requested operation, and nothing else; on the server the spec,
the status, the labels and the identity of every stored replica are left as
they were. -/
theorem updateTraceOperation_patch_body (env : Env) (trace : Trace) (operation : String)
    (w : World) (hrest : getRestClient env = none) :
    (updateTraceOperation env trace operation w).2.requests =
      w.requests ++ [Request.patch trace.ObjectMeta.Namespace "traces" trace.ObjectMeta.Name
        { Annotations := [(GADGET_OPERATION, operation)] }] ∧
    jsonMarshal { Annotations := [(GADGET_OPERATION, operation)] } =
      .obj [("metadata",
        .obj [("annotations", .obj [("gadget.kinvolk.io/operation", .str operation)])])] ∧
    (updateTraceOperation env trace operation w).2.traces.map (fun t => (t.Spec, t.Status)) =
      w.traces.map (fun t => (t.Spec, t.Status)) ∧
    (updateTraceOperation env trace operation w).2.traces.map
        (fun t => (t.ObjectMeta.Name, t.ObjectMeta.Namespace, t.ObjectMeta.Labels)) =
      w.traces.map (fun t => (t.ObjectMeta.Name, t.ObjectMeta.Namespace, t.ObjectMeta.Labels)) := by
  refine ⟨updateTraceOperation_requests env trace operation w hrest, rfl, ?_, ?_⟩
  · simp only [updateTraceOperation, hrest]
    exact (World.Patch_frame w _ _ _ _).1
  · simp only [updateTraceOperation, hrest]
    exact (World.Patch_frame w _ _ _ _).2

/-- Witness of C17: the operation `stop` is requested for the first replica of
the three-replica cluster. -/
theorem updateTraceOperation_patch_body_witness :
    (updateTraceOperation sampleEnv (threeReplicaWorld.traces.get ⟨0, by decide⟩) "stop"
      threeReplicaWorld).2.requests =
      [] ++ [Request.patch "gadget" "traces" "seccomp-1"
        { Annotations := [(GADGET_OPERATION, "stop")] }] ∧
    jsonMarshal { Annotations := [(GADGET_OPERATION, "stop")] } =
      .obj [("metadata",
        .obj [("annotations", .obj [("gadget.kinvolk.io/operation", .str "stop")])])] :=
  have h := updateTraceOperation_patch_body sampleEnv
    (threeReplicaWorld.traces.get ⟨0, by decide⟩) "stop" threeReplicaWorld rfl
  ⟨h.1, h.2.1⟩

/-- Nothing is deleted in a world left as it is. -/
theorem NothingDeleted.refl (w : World) : NothingDeleted w w :=
  ⟨rfl, [], by simp, rfl⟩

/-- Nothing is deleted along two steps in which nothing is deleted. -/
theorem NothingDeleted.trans {w w1 w2 : World} (h1 : NothingDeleted w w1)
    (h2 : NothingDeleted w1 w2) : NothingDeleted w w2 := by
  obtain ⟨ht1, e1, hr1, hd1⟩ := h1
  obtain ⟨ht2, e2, hr2, hd2⟩ := h2
  refine ⟨ht2.trans ht1, e1 ++ e2, ?_, ?_⟩
  · rw [hr2, hr1, List.append_assoc]
  · rw [List.any_append, hd1, hd2]
    rfl

/-- The condition of the wait deletes nothing. -/
theorem waitCondition_nothingDeleted (err : Option GoError) (expectedState : String)
    (event : Event) (w : World) :
    NothingDeleted w (waitCondition err expectedState event w).2 := by
  have hreq := waitCondition_requests err expectedState event w
  refine ⟨?_, [], by simpa using hreq, rfl⟩
  unfold waitCondition
  split_ifs
  · rfl
  · rfl
  · split
    · rfl
    · split_ifs <;> rfl

/-- A wait deletes nothing. -/
theorem UntilWithoutRetryLoop_nothingDeleted (closed : Bool) (err : Option GoError)
    (expectedState : String) :
    ∀ (events : List Event) (w : World),
      NothingDeleted w
        (UntilWithoutRetryLoop closed (waitCondition err expectedState) events w).2 := by
  intro events
  induction events with
  | nil => intro w; exact NothingDeleted.refl w
  | cons ev rest ih =>
    intro w
    have hstep := waitCondition_nothingDeleted err expectedState ev w
    rcases hc : waitCondition err expectedState ev w with ⟨⟨done, e⟩, w1⟩
    rw [hc] at hstep
    cases e with
    | some e1 => simpa [UntilWithoutRetryLoop, hc] using hstep
    | none =>
      cases done with
      | true => simpa [UntilWithoutRetryLoop, hc] using hstep
      | false =>
        simp only [UntilWithoutRetryLoop, hc]
        exact hstep.trans (ih w1)

/-- Opening a watch deletes nothing. -/
theorem watchTrace_nothingDeleted (env : Env) (name : String) (w : World) :
    NothingDeleted w (watchTrace env name w).2 := by
  unfold watchTrace
  cases getDynamicClient env with
  | some e => exact NothingDeleted.refl w
  | none =>
    have hadd : NothingDeleted w
        { w with requests := w.requests ++ [Request.watch "gadget" name] } :=
      ⟨rfl, [Request.watch "gadget" name], rfl, rfl⟩
    cases env.Watch name with
    | error e => exact hadd
    | ok watcher => exact hadd

/-- The loop of `waitForOutput` deletes nothing. -/
theorem waitForOutputLoop_nothingDeleted (env : Env) (expectedState : String) :
    ∀ (traces returnedTraces : List Trace) (w : World),
      NothingDeleted w (waitForOutputLoop env expectedState traces returnedTraces w).2 := by
  intro traces
  induction traces with
  | nil => intro returnedTraces w; exact NothingDeleted.refl w
  | cons t rest ih =>
    intro returnedTraces w
    have hwatch := watchTrace_nothingDeleted env t.ObjectMeta.Name w
    rcases hw : watchTrace env t.ObjectMeta.Name w with ⟨⟨watcher, err⟩, w1⟩
    rw [hw] at hwatch
    cases err with
    | some e => simpa [waitForOutputLoop, hw] using hwatch
    | none =>
      have hwait := UntilWithoutRetryLoop_nothingDeleted watcher.closed none expectedState
        watcher.events w1
      rcases hu : UntilWithoutRetry watcher (waitCondition none expectedState) w1 with ⟨r, w2⟩
      have hu1 : UntilWithoutRetryLoop watcher.closed (waitCondition none expectedState)
          watcher.events w1 = (r, w2) := hu
      rw [hu1] at hwait
      cases r with
      | error e => simpa [waitForOutputLoop, hw, hu] using hwatch.trans hwait
      | ok ev =>
        cases hm : mapToTrace ev.object with
        | error e => simpa [waitForOutputLoop, hw, hu, hm] using hwatch.trans hwait
        | ok trace =>
          simp only [waitForOutputLoop, hw, hu, hm]
          exact (hwatch.trans hwait).trans (ih _ w2)

/-- Listing the replicas of a trace ID deletes nothing. -/
theorem getTraceListFromID_nothingDeleted (env : Env) (traceID : String) (w : World) :
    NothingDeleted w (getTraceListFromID env traceID w).2 := by
  unfold getTraceListFromID getTraceListFromOptions
  cases getRestClient env with
  | some e => exact NothingDeleted.refl w
  | none =>
    have hadd : NothingDeleted w
        { w with
          requests := w.requests ++
            [Request.get "gadget" "traces" (GLOBAL_TRACE_ID ++ "=" ++ traceID)]
          faults := w.faults.tail } :=
      ⟨rfl, [Request.get "gadget" "traces" (GLOBAL_TRACE_ID ++ "=" ++ traceID)], rfl, rfl⟩
    simp only [World.Get, World.serve]
    cases w.faults.headD none with
    | some e => exact hadd
    | none =>
      simp only
      split_ifs
      · exact hadd
      · exact hadd

/-- `RunTraceAndPrintStatusOutput` deletes nothing of what it created: for
every configuration whose output mode is not `Stream` and for which
`CreateTrace` succeeds, leaving the world `w1`, the replicas stored when the
function returns are those of `w1` and no deletion was requested since. -/
theorem RunTraceAndPrintStatusOutput_nothingDeleted (env : Env) (rand : Nat → Nat)
    (config : TraceConfig) (customResultsDisplay : List Trace → Option GoError × List Printf)
    (w w1 : World) (traceID : String) (hmode : config.TraceOutputMode ≠ "Stream")
    (hcreate : CreateTrace env rand config w = (.ok traceID, w1)) :
    NothingDeleted w1
      (RunTraceAndPrintStatusOutput env rand config customResultsDisplay w).2 := by
  have hlist := getTraceListFromID_nothingDeleted env traceID w1
  simp only [RunTraceAndPrintStatusOutput, hmode, if_false, hcreate, PrintTraceOutputFromStatus,
    waitForOutput]
  rcases hl : getTraceListFromID env traceID w1 with ⟨r, w2⟩
  rw [hl] at hlist
  cases r with
  | error e => exact hlist
  | ok traces =>
    have hloop := waitForOutputLoop_nothingDeleted env config.TraceOutputState traces [] w2
    simp only
    rcases hwl : waitForOutputLoop env config.TraceOutputState traces [] w2 with ⟨r2, w3⟩
    rw [hwl] at hloop
    cases r2 with
    | error e => exact hlist.trans hloop
    | ok snapshots => exact (hlist.trans hloop).trans ⟨rfl, [], by simp, rfl⟩

/-- C18, the code at the failing input: `RunTraceAndPrintStatusOutput` is run
with the output mode `Status` on the three-node sample cluster, every request
being served and every watch delivering the expected state. It returns `nil`
after printing the three results; it has issued no deletion and the three
replicas it created are still stored, whereas `DeleteTrace` on the trace ID
would have removed them. -/
theorem RunTraceAndPrintStatusOutput_leaves_trace :
    (RunTraceAndPrintStatusOutput (watchEnv [sampleEvent .Modified "Stopped" "" ""]) sampleRand
      statusConfig sampleDisplay emptyWorld).1 = none ∧
    (RunTraceAndPrintStatusOutput (watchEnv [sampleEvent .Modified "Stopped" "" ""]) sampleRand
      statusConfig sampleDisplay emptyWorld).2.stdout.length = 3 ∧
    (RunTraceAndPrintStatusOutput (watchEnv [sampleEvent .Modified "Stopped" "" ""]) sampleRand
      statusConfig sampleDisplay emptyWorld).2.requests.any Request.isDelete = false ∧
    (RunTraceAndPrintStatusOutput (watchEnv [sampleEvent .Modified "Stopped" "" ""]) sampleRand
      statusConfig sampleDisplay emptyWorld).2.traces =
      [(newTrace statusConfig "aaaaaaaaaaaaaaaa").onNode "node-a",
       (newTrace statusConfig "aaaaaaaaaaaaaaaa").onNode "node-b",
       (newTrace statusConfig "aaaaaaaaaaaaaaaa").onNode "node-c"] ∧
    (DeleteTrace (watchEnv [sampleEvent .Modified "Stopped" "" ""]) "aaaaaaaaaaaaaaaa"
      (RunTraceAndPrintStatusOutput (watchEnv [sampleEvent .Modified "Stopped" "" ""]) sampleRand
        statusConfig sampleDisplay emptyWorld).2).2.traces = [] :=
  ⟨rfl, rfl, rfl, rfl, rfl⟩

/-- Every request the creation loop issues is added after those already
received, and every creation request among them carries the trace handed to
the loop, up to its node. -/
theorem createTracesLoop_posts (traceNode : String) (nodes : List Node) :
    ∀ (trace : Trace) (nodeFound : Bool) (w : World),
      ∃ extra, (createTracesLoop traceNode nodes trace nodeFound w).2.requests =
          w.requests ++ extra ∧
        ∀ ns resource body, Request.post ns resource body ∈ extra →
          ∃ node, body = trace.onNode node := by
  induction nodes with
  | nil =>
    intro trace nodeFound w
    exact ⟨[], by simp [createTracesLoop], by simp⟩
  | cons node rest ih =>
    intro trace nodeFound w
    by_cases hskip : traceNode ≠ "" ∧ node.Name ≠ traceNode
    · rw [createTracesLoop, if_pos hskip]
      exact ih trace nodeFound w
    · have hbody : ∃ n, (if traceNode = "" then
          ({ trace with Spec := { trace.Spec with Node := node.Name } } : Trace)
          else trace) = trace.onNode n := by
        by_cases h0 : traceNode = ""
        · exact ⟨node.Name, by simp [h0, Trace.onNode]⟩
        · exact ⟨trace.Spec.Node, by simp [h0, Trace.onNode]⟩
      obtain ⟨n, hn⟩ := hbody
      have hmeta : (trace.onNode n).ObjectMeta = trace.ObjectMeta := rfl
      rw [createTracesLoop, if_neg hskip]
      simp only [hn, World.Post, World.serve, hmeta]
      cases hf : w.faults.headD none with
      | some e =>
        cases hl : trace.ObjectMeta.Labels.lookup GLOBAL_TRACE_ID with
        | none =>
          refine ⟨[Request.post trace.ObjectMeta.Namespace "traces" (trace.onNode n)], rfl, ?_⟩
          intro ns resource body hmem
          simp only [List.mem_singleton, Request.post.injEq] at hmem
          exact ⟨n, hmem.2.2⟩
        | some traceID =>
          refine ⟨[Request.post trace.ObjectMeta.Namespace "traces" (trace.onNode n),
            Request.delete "gadget" "traces" (GLOBAL_TRACE_ID ++ "=" ++ traceID)], ?_, ?_⟩
          · simp only [deleteTraces_requests]
            simp
          · intro ns resource body hmem
            simp only [List.mem_cons, Request.post.injEq, List.mem_singleton, reduceCtorEq,
              or_false, List.not_mem_nil] at hmem
            exact ⟨n, hmem.2.2⟩
      | none =>
        obtain ⟨extra, hreq, hposts⟩ := ih (trace.onNode n) true
          { w with
            requests := w.requests ++
              [Request.post trace.ObjectMeta.Namespace "traces" (trace.onNode n)]
            faults := w.faults.tail
            traces := w.traces ++ [trace.onNode n] }
        refine ⟨Request.post trace.ObjectMeta.Namespace "traces" (trace.onNode n) :: extra,
          ?_, ?_⟩
        · simp only
          rw [hreq]
          simp
        · intro ns resource body hmem
          rcases List.mem_cons.mp hmem with heq | hmem
          · simp only [Request.post.injEq] at heq
            exact ⟨n, heq.2.2⟩
          · obtain ⟨m, hm⟩ := hposts ns resource body hmem
            exact ⟨m, by rw [hm, Trace.onNode_onNode]⟩

/-- C19: the replica built by `CreateTrace` has no filter exactly when the
namespace, the pod name and the container name of the flags are empty and the
label set is empty; otherwise its filter holds exactly these four values; and
every creation request `CreateTrace` issues carries that filter. -/
theorem CreateTrace_filter (env : Env) (rand : Nat → Nat) (config : TraceConfig) (w : World) :
    ((newTrace config (randomTraceID rand)).Spec.Filter = none ↔
      config.CommonFlags.Namespace = "" ∧ config.CommonFlags.Podname = "" ∧
        config.CommonFlags.Containername = "" ∧ config.CommonFlags.Labels = []) ∧
    (¬ (config.CommonFlags.Namespace = "" ∧ config.CommonFlags.Podname = "" ∧
        config.CommonFlags.Containername = "" ∧ config.CommonFlags.Labels = []) →
      (newTrace config (randomTraceID rand)).Spec.Filter =
        some
          { Namespace := config.CommonFlags.Namespace
            Podname := config.CommonFlags.Podname
            ContainerName := config.CommonFlags.Containername
            Labels := config.CommonFlags.Labels }) ∧
    ∃ extra, (CreateTrace env rand config w).2.requests = w.requests ++ extra ∧
      ∀ ns resource body, Request.post ns resource body ∈ extra →
        body.Spec.Filter = (newTrace config (randomTraceID rand)).Spec.Filter := by
  have hlabels : config.CommonFlags.Labels.length > 0 ↔ config.CommonFlags.Labels ≠ [] := by
    cases config.CommonFlags.Labels <;> simp
  refine ⟨?_, ?_, ?_⟩
  · simp only [newTrace]
    split_ifs with h
    · simp only [false_iff]
      rintro ⟨h1, h2, h3, h4⟩
      rcases h with h | h | h | h
      · exact h h1
      · exact h h2
      · exact h h3
      · exact (hlabels.mp h) h4
    · simp only [true_iff]
      refine ⟨?_, ?_, ?_, ?_⟩
      · by_contra hc; exact h (Or.inl hc)
      · by_contra hc; exact h (Or.inr (Or.inl hc))
      · by_contra hc; exact h (Or.inr (Or.inr (Or.inl hc)))
      · by_contra hc; exact h (Or.inr (Or.inr (Or.inr (hlabels.mpr hc))))
  · intro hne
    simp only [newTrace]
    split_ifs with h
    · rfl
    · exfalso
      apply hne
      refine ⟨?_, ?_, ?_, ?_⟩
      · by_contra hc; exact h (Or.inl hc)
      · by_contra hc; exact h (Or.inr (Or.inl hc))
      · by_contra hc; exact h (Or.inr (Or.inr (Or.inl hc)))
      · by_contra hc; exact h (Or.inr (Or.inr (Or.inr (hlabels.mpr hc))))
  · unfold CreateTrace createTraces
    cases env.NewClientsetFromConfigFlags with
    | some e => exact ⟨[], by simp, by simp⟩
    | none =>
      cases env.NodesList with
      | error e => exact ⟨[], by simp, by simp⟩
      | ok nodes =>
        cases getRestClient env with
        | some e => exact ⟨[], by simp, by simp⟩
        | none =>
          obtain ⟨extra, hreq, hposts⟩ :=
            createTracesLoop_posts (newTrace config (randomTraceID rand)).Spec.Node nodes
              (newTrace config (randomTraceID rand)) false w
          refine ⟨extra, ?_, ?_⟩
          · rw [← hreq]
            simp only
            rcases createTracesLoop (newTrace config (randomTraceID rand)).Spec.Node nodes
              (newTrace config (randomTraceID rand)) false w with ⟨r, w1⟩
            cases r with
            | error e => rfl
            | ok found =>
              simp only
              split_ifs <;> rfl
          · intro ns resource body hmem
            obtain ⟨n, hn⟩ := hposts ns resource body hmem
            rw [hn]
            rfl

/-- Witness of C19: the sample configuration names a pod only; its replicas
carry the filter on that pod. A configuration without namespace, pod,
container and labels gives no filter. -/
theorem CreateTrace_filter_witness :
    (newTrace sampleConfig (randomTraceID sampleRand)).Spec.Filter =
      some { Namespace := "", Podname := "mypod", ContainerName := "", Labels := [] } ∧
    (newTrace { sampleConfig with
        CommonFlags := { sampleConfig.CommonFlags with Podname := "" } }
      (randomTraceID sampleRand)).Spec.Filter = none :=
  ⟨(CreateTrace_filter sampleEnv sampleRand sampleConfig emptyWorld).2.1 (by decide),
    (CreateTrace_filter sampleEnv sampleRand
      { sampleConfig with CommonFlags := { sampleConfig.CommonFlags with Podname := "" } }
      emptyWorld).1.mpr (by decide)⟩

/-- C20: when the output mode is not `Stream`, `RunTraceAndPrintStream`
returns its guard error and leaves the world as it was (nothing is created);
when the output mode is `Stream`, so does `RunTraceAndPrintStatusOutput`. In
each case the other function passes its guard and goes on with `CreateTrace`;
hence for every configuration exactly one of the two passes its guard. -/
theorem RunTrace_output_mode_guards (env : Env) (rand : Nat → Nat) (config : TraceConfig)
    (schedule : List Arrival)
    (customResultsDisplay : List Trace → Option GoError × List Printf) (w : World) :
    (config.TraceOutputMode ≠ "Stream" →
      RunTraceAndPrintStream env rand config schedule w =
        (some (some (.new
          "TraceOutputMode must be Stream. Otherwise, call RunTraceAndPrintStatusOutput!")), w) ∧
      RunTraceAndPrintStatusOutput env rand config customResultsDisplay w =
        match CreateTrace env rand config w with
        | (.error err, w1) => (some (.errorf "error creating trace: %w" [.err (some err)]), w1)
        | (.ok traceID, w1) =>
          PrintTraceOutputFromStatus env traceID config.TraceOutputState
            customResultsDisplay w1) ∧
    (config.TraceOutputMode = "Stream" →
      RunTraceAndPrintStatusOutput env rand config customResultsDisplay w =
        (some (.new
          "TraceOutputMode must not be Stream. Otherwise, call RunTraceAndPrintStream!"), w) ∧
      RunTraceAndPrintStream env rand config schedule w =
        match CreateTrace env rand config w with
        | (.error err, w1) =>
          (some (some (.errorf "error creating trace: %w" [.err (some err)])), w1)
        | (.ok traceID, w1) =>
          match PrintTraceOutputFromStream env traceID config.TraceOutputState
              config.CommonFlags schedule w1 with
          | (none, w2) => (none, w2)
          | (some r, w2) => (some r, (DeleteTrace env traceID w2).2)) := by
  constructor
  · intro hmode
    exact ⟨by simp [RunTraceAndPrintStream, hmode],
      by simp [RunTraceAndPrintStatusOutput, hmode]⟩
  · intro hmode
    exact ⟨by simp [RunTraceAndPrintStatusOutput, hmode],
      by simp [RunTraceAndPrintStream, hmode]⟩

/-- Witness of C20: the sample configuration has the output mode `Status`;
`RunTraceAndPrintStream` rejects it without touching the cluster. With the
output mode `Stream` it is `RunTraceAndPrintStatusOutput` that rejects it. -/
theorem RunTrace_output_mode_guards_witness :
    RunTraceAndPrintStream sampleEnv sampleRand sampleConfig [] emptyWorld =
      (some (some (.new
        "TraceOutputMode must be Stream. Otherwise, call RunTraceAndPrintStatusOutput!")),
        emptyWorld) ∧
    RunTraceAndPrintStatusOutput sampleEnv sampleRand
        { sampleConfig with TraceOutputMode := "Stream" } sampleDisplay emptyWorld =
      (some (.new "TraceOutputMode must not be Stream. Otherwise, call RunTraceAndPrintStream!"),
        emptyWorld) :=
  ⟨((RunTrace_output_mode_guards sampleEnv sampleRand sampleConfig [] sampleDisplay
      emptyWorld).1 (by decide)).1,
    ((RunTrace_output_mode_guards sampleEnv sampleRand
      { sampleConfig with TraceOutputMode := "Stream" } [] sampleDisplay emptyWorld).2 rfl).1⟩

/-! ## Helpers on maps of strings -/

/-- C22, the code at the failing input: the map holds the empty message for
`node-a` and the message `boom` for `node-b`, two different values. When
`node-a` is visited first `getIdenticalValue` returns `boom`, when `node-b` is
visited first it returns the empty string: the result depends on the iteration
order, and in the first order it is not the empty string although two elements
differ. -/
theorem getIdenticalValue_depends_on_order :
    getIdenticalValue [("node-a", ""), ("node-b", "boom")] = "boom" ∧
    getIdenticalValue [("node-b", "boom"), ("node-a", "")] = "" :=
  ⟨rfl, rfl⟩

/-- Once a first term is written, the loop of `labelsFromFilter` appends a
comma and the term of every further entry with a non-empty value. -/
theorem labelsFromFilterLoop_comma :
    ∀ (filter : List (String × String)) (labels : String),
      labelsFromFilterLoop filter labels "," =
        String.intercalate.go labels "," (selectorTerms filter) := by
  intro filter
  induction filter with
  | nil => intro labels; rfl
  | cons e rest ih =>
    intro labels
    obtain ⟨k, v⟩ := e
    by_cases hv : v = ""
    · have hterms : selectorTerms ((k, v) :: rest) = selectorTerms rest := by
        simp [selectorTerms, hv]
      rw [labelsFromFilterLoop, if_pos hv, hterms]
      exact ih labels
    · have hterms : selectorTerms ((k, v) :: rest) = (k ++ "=" ++ v) :: selectorTerms rest := by
        simp [selectorTerms, hv]
      rw [labelsFromFilterLoop, if_neg hv, hterms, ih]
      simp only [String.intercalate.go, String.append_assoc]

/-- C23: `labelsFromFilter` returns the terms `name=value` of the entries whose
value is not empty, one per such entry and none for the others, in iteration
order, joined by single commas (no leading, no trailing comma); it returns the
empty string when every value is empty. -/
theorem labelsFromFilter_selector (filter : List (String × String)) :
    labelsFromFilter filter = ",".intercalate (selectorTerms filter) ∧
    (selectorTerms filter).length = (filter.filter (fun e => decide (e.2 ≠ ""))).length ∧
    ((∀ e ∈ filter, e.2 = "") → labelsFromFilter filter = "") := by
  have hmain : labelsFromFilter filter = ",".intercalate (selectorTerms filter) := by
    unfold labelsFromFilter
    induction filter with
    | nil => rfl
    | cons e rest ih =>
      obtain ⟨k, v⟩ := e
      by_cases hv : v = ""
      · have hterms : selectorTerms ((k, v) :: rest) = selectorTerms rest := by
          simp [selectorTerms, hv]
        rw [labelsFromFilterLoop, if_pos hv, hterms]
        exact ih
      · have hterms : selectorTerms ((k, v) :: rest) =
            (k ++ "=" ++ v) :: selectorTerms rest := by
          simp [selectorTerms, hv]
        rw [labelsFromFilterLoop, if_neg hv, hterms, labelsFromFilterLoop_comma]
        simp only [String.intercalate, String.empty_append]
  refine ⟨hmain, by simp [selectorTerms], fun hall => ?_⟩
  have hnone : selectorTerms filter = [] := by
    simp only [selectorTerms, List.map_eq_nil_iff, List.filter_eq_nil_iff]
    intro e he
    simp [hall e he]
  rw [hmain, hnone]
  rfl

/-- Witness of C23: the filter of `getTraceListFromParameters` for the gadget
`seccomp` on pod `mypod` with the output mode `Status`, the other fields being
empty. -/
theorem labelsFromFilter_selector_witness :
    labelsFromFilter
      [("gadgetName", "seccomp"), ("nodeName", ""), ("namespace", ""), ("podName", "mypod"),
        ("containerName", ""), ("outputMode", "Status")] =
      "gadgetName=seccomp,podName=mypod,outputMode=Status" :=
  (labelsFromFilter_selector
    [("gadgetName", "seccomp"), ("nodeName", ""), ("namespace", ""), ("podName", "mypod"),
      ("containerName", ""), ("outputMode", "Status")]).1.trans (by decide)

end TraceUtils

namespace NRIHook

open TraceUtils

/-- A request that carries a spec never makes `processContainer` panic: it
returns, with or without an error. -/
theorem processContainer_returns_with_spec (env : HookEnv) (r : Request) (spec : Spec)
    (hspec : r.Spec = some spec) : ∃ err, (processContainer env r).1 = .returns err := by
  unfold processContainer
  split_ifs with hinvalid hdelete
  · exact ⟨_, rfl⟩
  · cases env.Dial with
    | some err => exact ⟨_, rfl⟩
    | none => exact ⟨_, rfl⟩
  · cases env.Dial with
    | some err => exact ⟨_, rfl⟩
    | none =>
      cases env.GetCgroupPaths r.Pid with
      | error err => exact ⟨_, rfl⟩
      | ok paths =>
        cases env.GetMntNs r.Pid with
        | error err => exact ⟨_, rfl⟩
        | ok mntns =>
          simp only [hspec]
          exact ⟨_, rfl⟩

/-- Where `processContainer` panics: exactly on a request without spec that
passes the validation, is not a deletion, and for which the agent is reached
and the cgroup paths and the mount namespace are found. -/
theorem processContainer_panics_iff (env : HookEnv) (r : Request) :
    (processContainer env r).1 = .panics ↔
      (r.Spec = none ∧ ¬ (r.ID = "" ∨ (r.Pid = 0 ∧ r.State = Create)) ∧ env.Dial = none ∧
        r.State ≠ Delete ∧ (∃ paths, env.GetCgroupPaths r.Pid = .ok paths) ∧
        (∃ mntns, env.GetMntNs r.Pid = .ok mntns)) := by
  unfold processContainer
  split_ifs with hinvalid hdelete
  · simp [hinvalid]
  · cases env.Dial <;> simp [hdelete]
  · cases hdial : env.Dial with
    | some err => simp
    | none =>
      cases hpaths : env.GetCgroupPaths r.Pid with
      | error err => simp
      | ok paths =>
        cases hmnt : env.GetMntNs r.Pid with
        | error err => simp
        | ok mntns =>
          cases hspec : r.Spec with
          | none => simp [hinvalid, hdelete]
          | some spec => simp

/-- What holds of `igHook.Invoke` on every request that carries a spec,
whatever the node answers: it returns the result built by `NewResult` and a
`nil` error; it hands the request to `processContainer` exactly when the
request is not for a sandbox and its state is Create or Delete, and otherwise
makes no call into the agent. -/
theorem Invoke_returns_nil_with_spec (env : HookEnv) (r : Request) (spec : Spec)
    (hspec : r.Spec = some spec) :
    (Invoke env r).1 = .returns (r.NewResult "ighook", none) ∧
    (r.IsSandbox = false ∧ (r.State = Create ∨ r.State = Delete) →
      (Invoke env r).2.processed = [r] ∧
      (Invoke env r).2.agent = (processContainer env r).2) ∧
    (¬ (r.IsSandbox = false ∧ (r.State = Create ∨ r.State = Delete)) →
      (Invoke env r).2.processed = [] ∧ (Invoke env r).2.agent = []) := by
  obtain ⟨err, herr⟩ := processContainer_returns_with_spec env r spec hspec
  rcases hp : processContainer env r with ⟨outcome, calls⟩
  rw [hp] at herr
  simp only at herr
  subst herr
  refine ⟨?_, fun h => ?_, fun h => ?_⟩
  · rw [Invoke]
    split_ifs with h
    · rw [hp]
    · rfl
  · rw [Invoke, if_pos h, hp]
    exact ⟨rfl, rfl⟩
  · rw [Invoke, if_neg h]
    exact ⟨rfl, rfl⟩

/-- C21, the code at the failing input: a creation request for the container
`c1` of the sandbox `s1`, valid but for its spec, which is absent; the agent is
reached and the cgroup paths and the mount namespace of the process are found.
The request is not for a sandbox and its state is Create, so `Invoke` calls
`processContainer`, which panics on `r.Spec.Annotations` before it calls
`AddContainer`: `Invoke` returns neither a result nor a `nil` error. The same
request with its spec makes `Invoke` return the result and a `nil` error
although the agent refuses the container. -/
theorem Invoke_panics_without_spec :
    specLessRequest.IsSandbox = false ∧ specLessRequest.State = Create ∧
    processContainer refusingEnv specLessRequest = (.panics, []) ∧
    (Invoke refusingEnv specLessRequest).1 = .panics ∧
    (Invoke refusingEnv specLessRequest).2.processed = [specLessRequest] ∧
    (Invoke refusingEnv specLessRequest).2.agent = [] ∧
    (processContainer refusingEnv createRequest).1 =
      .returns (some (.new "agent: cannot add container")) ∧
    (Invoke refusingEnv createRequest).1 =
      .returns ({ Plugin := "ighook", Version := "0.1" }, none) :=
  ⟨rfl, rfl, rfl, rfl, rfl, rfl, rfl, rfl⟩

end NRIHook

namespace KubeIPResolver

open TraceUtils

/-- An endpoint may be left as it is. -/
theorem resolvedBy_refl (pods : List Pod) (svcs : List Service) (e : L3Endpoint) :
    ResolvedBy pods svcs e e :=
  ⟨rfl, Or.inl rfl⟩

/-- What `enrich` may make of an endpoint in two steps, it may make in one. -/
theorem resolvedBy_trans {pods : List Pod} {svcs : List Service} {e e1 e2 : L3Endpoint}
    (h1 : ResolvedBy pods svcs e e1) (h2 : ResolvedBy pods svcs e1 e2) :
    ResolvedBy pods svcs e e2 := by
  obtain ⟨ha1, hr1⟩ := h1
  obtain ⟨ha2, hr2⟩ := h2
  refine ⟨ha2.trans ha1, ?_⟩
  rcases hr2 with rfl | ⟨pod, hmem, hnet, hip, hrest⟩ | ⟨svc, hmem, hip, hrest⟩
  · exact hr1
  · exact Or.inr (Or.inl ⟨pod, hmem, hnet, hip.trans ha1, hrest⟩)
  · exact Or.inr (Or.inr ⟨svc, hmem, hip.trans ha1, hrest⟩)

/-- Two lists related pointwise, twice in a row, are related pointwise. -/
theorem forall₂_resolvedBy_trans {pods : List Pod} {svcs : List Service} :
    ∀ {l l1 l2 : List L3Endpoint}, List.Forall₂ (ResolvedBy pods svcs) l l1 →
      List.Forall₂ (ResolvedBy pods svcs) l1 l2 → List.Forall₂ (ResolvedBy pods svcs) l l2 := by
  intro l l1 l2 h1
  induction h1 generalizing l2 with
  | nil => intro h2; cases h2; exact List.Forall₂.nil
  | cons hab _ ih =>
    intro h2
    cases h2 with
    | cons hbc hrest => exact List.Forall₂.cons (resolvedBy_trans hab hbc) (ih hrest)

/-- The inner loop of `enrich` keeps the address of every endpoint and either
leaves an endpoint as it is or, when its address is the one looked for, gives
it the kind, name, namespace and labels of the object. -/
theorem enrichEndpoints_pointwise (total : Nat) (addr : String) (kind : EndpointKind)
    (name ns : String) (labels : List (String × String)) :
    ∀ (endpoints : List L3Endpoint) (found : Nat),
      List.Forall₂
        (fun e e1 => e1 = e ∨ (addr = e.Addr ∧
          e1 = { e with Kind := kind, Name := name, Namespace := ns, PodLabels := labels }))
        endpoints (enrichEndpoints total addr kind name ns labels endpoints found).endpoints := by
  intro endpoints
  induction endpoints with
  | nil => intro found; exact List.Forall₂.nil
  | cons e rest ih =>
    intro found
    have hsame : List.Forall₂
        (fun e e1 => e1 = e ∨ (addr = e.Addr ∧
          e1 = { e with Kind := kind, Name := name, Namespace := ns, PodLabels := labels }))
        rest rest := List.forall₂_same.mpr (fun x _ => Or.inl rfl)
    rw [enrichEndpoints]
    split_ifs with haddr hfound
    · exact List.Forall₂.cons (Or.inr ⟨haddr, rfl⟩) hsame
    · exact List.Forall₂.cons (Or.inr ⟨haddr, rfl⟩) (ih _)
    · exact List.Forall₂.cons (Or.inl rfl) (ih _)

/-- The loop over the pods makes of every endpoint only what `enrich` may make
of it. -/
theorem enrichPods_resolvedBy (total : Nat) (pods : List Pod) (svcs : List Service) :
    ∀ (todo : List Pod), (∀ pod ∈ todo, pod ∈ pods) →
      ∀ (endpoints : List L3Endpoint) (found : Nat),
        List.Forall₂ (ResolvedBy pods svcs) endpoints
          (enrichPods total todo endpoints found).endpoints := by
  intro todo
  induction todo with
  | nil =>
    intro _ endpoints found
    exact List.forall₂_same.mpr (fun e _ => resolvedBy_refl pods svcs e)
  | cons pod rest ih =>
    intro hsub endpoints found
    have hrest : ∀ p ∈ rest, p ∈ pods := fun p hp => hsub p (List.mem_cons_of_mem _ hp)
    by_cases hnet : pod.HostNetwork = true
    · rw [enrichPods, if_pos hnet]
      exact ih hrest endpoints found
    · have hstep : List.Forall₂ (ResolvedBy pods svcs) endpoints
          (enrichEndpoints total pod.PodIP .Pod pod.Name pod.Namespace pod.Labels
            endpoints found).endpoints := by
        refine (enrichEndpoints_pointwise total pod.PodIP .Pod pod.Name pod.Namespace
          pod.Labels endpoints found).imp ?_
        intro e e1 h
        rcases h with rfl | ⟨haddr, rfl⟩
        · exact resolvedBy_refl pods svcs _
        · exact ⟨rfl, Or.inr (Or.inl ⟨pod, hsub pod (List.mem_cons_self _ _),
            by simpa using hnet, haddr, rfl, rfl, rfl, rfl⟩)⟩
      rw [enrichPods, if_neg hnet]
      dsimp only
      split_ifs with hret
      · exact hstep
      · exact forall₂_resolvedBy_trans hstep (ih hrest _ _)

/-- The loop over the services makes of every endpoint only what `enrich` may
make of it. -/
theorem enrichSvcs_resolvedBy (total : Nat) (pods : List Pod) (svcs : List Service) :
    ∀ (todo : List Service), (∀ svc ∈ todo, svc ∈ svcs) →
      ∀ (endpoints : List L3Endpoint) (found : Nat),
        List.Forall₂ (ResolvedBy pods svcs) endpoints
          (enrichSvcs total todo endpoints found).endpoints := by
  intro todo
  induction todo with
  | nil =>
    intro _ endpoints found
    exact List.forall₂_same.mpr (fun e _ => resolvedBy_refl pods svcs e)
  | cons svc rest ih =>
    intro hsub endpoints found
    have hrest : ∀ p ∈ rest, p ∈ svcs := fun p hp => hsub p (List.mem_cons_of_mem _ hp)
    have hstep : List.Forall₂ (ResolvedBy pods svcs) endpoints
        (enrichEndpoints total svc.ClusterIP .Service svc.Name svc.Namespace svc.Labels
          endpoints found).endpoints := by
      refine (enrichEndpoints_pointwise total svc.ClusterIP .Service svc.Name svc.Namespace
        svc.Labels endpoints found).imp ?_
      intro e e1 h
      rcases h with rfl | ⟨haddr, rfl⟩
      · exact resolvedBy_refl pods svcs _
      · exact ⟨rfl, Or.inr (Or.inr ⟨svc, hsub svc (List.mem_cons_self _ _),
          haddr, rfl, rfl, rfl, rfl⟩)⟩
    rw [enrichSvcs]
    split_ifs with hret
    · exact hstep
    · exact forall₂_resolvedBy_trans hstep (ih hrest _ _)

/-- What holds of `enrich` when both listings succeed: every endpoint keeps its
address and either is left with the kind Raw, or carries the kind Pod and the
name and namespace of a listed pod that is not host-network and has its
address, or carries the kind Service and the name and namespace of a listed
service of its address. In particular an endpoint matching no such pod and no
service has the kind Raw, and a resolved endpoint bears the name of a matching
object. -/
theorem enrich_sound (k8sInventory : K8sInventoryCache) (pods : List Pod)
    (svcs : List Service) (endpoints : List L3Endpoint)
    (hpods : k8sInventory.GetPods = .ok pods) (hsvcs : k8sInventory.GetSvcs = .ok svcs) :
    List.Forall₂ (fun e e1 => ResolvedBy pods svcs { e with Kind := EndpointKind.Raw } e1)
      endpoints (enrich k8sInventory endpoints).1 := by
  have hpodsLoop := enrichPods_resolvedBy
    (endpoints.map (fun e => { e with Kind := EndpointKind.Raw })).length pods svcs pods
    (fun _ h => h) (endpoints.map (fun e => { e with Kind := EndpointKind.Raw })) 0
  rw [← List.forall₂_map_left_iff]
  simp only [enrich, hpods, hsvcs]
  split_ifs with hret
  · exact hpodsLoop
  · exact forall₂_resolvedBy_trans hpodsLoop
      (enrichSvcs_resolvedBy _ pods svcs svcs (fun _ h => h) _ _)

/-- C24, the code at the failing input: two endpoints, at `10.0.0.1` and at
`10.0.0.2`; the pods `job-1` and `web` both report `10.0.0.1` and the pod `db`
reports `10.0.0.2`, none being host-network. The counter `found` reaches the
number of endpoints on the second match of the first endpoint and `enrich`
returns: the endpoint at `10.0.0.2` is left with the kind Raw although it has
the address of the listed pod `db`. -/
theorem enrich_leaves_matching_endpoint_raw :
    (enrich sampleInventory [rawEndpoint "10.0.0.1", rawEndpoint "10.0.0.2"]).1 =
      [ { Addr := "10.0.0.1", Kind := .Pod, Name := "web", Namespace := "default",
          PodLabels := [] },
        { Addr := "10.0.0.2", Kind := .Raw, Name := "", Namespace := "", PodLabels := [] } ] := by
  decide

end KubeIPResolver

namespace Deploy

open TraceUtils

/-- Each of the eight listed kinds matches `acceptedK8sTypes`. -/
theorem MatchString_listed_kind :
    ∀ kind ∈ acceptedK8sTypes, MatchString acceptedK8sTypes kind = true := by
  decide

/-- What the loop of `parseK8sYaml` does with a document that is decoded: it is
kept, the loop going on with the next documents, when its kind matches
`acceptedK8sTypes`, and the whole call fails with the error on unsupported
object types otherwise. -/
theorem parseK8sYamlLoop_document {Object : Type}
    (decode : String → Except GoError (Object × String)) (f : String) (rest : List String)
    (retVal : List Object) (obj : Object) (kind : String)
    (hnonempty : ¬ (f = "\n" ∨ f = "")) (hdecode : decode f = .ok (obj, kind)) :
    parseK8sYamlLoop decode (f :: rest) retVal =
      if MatchString acceptedK8sTypes kind = false then
        .error (.errorf
          "the custom-roles configMap contained K8s object types which are not supported! Skipping object with type: %s"
          [.str kind])
      else parseK8sYamlLoop decode rest (retVal ++ [obj]) := by
  rw [parseK8sYamlLoop, if_neg hnonempty, hdecode]

/-- C25, the code at the failing input: the manifest holds one document of kind
`RoleList`, which is none of the eight listed kinds. The regular expression has
no anchors and `Role` occurs in `RoleList`, so the kind matches and
`parseK8sYaml` returns the object instead of the error on unsupported object
types; a document of kind `Pod` is rejected with that error. -/
theorem parseK8sYaml_accepts_unlisted_kind :
    "RoleList" ∉ acceptedK8sTypes ∧
    MatchString acceptedK8sTypes "RoleList" = true ∧
    parseK8sYaml sampleSplit sampleDecode roleListManifest = .ok [roleListManifest] ∧
    parseK8sYaml sampleSplit sampleDecode "apiVersion: v1\nkind: Pod\nmetadata:\n  name: p\n" =
      .error (.errorf
        "the custom-roles configMap contained K8s object types which are not supported! Skipping object with type: %s"
        [.str "Pod"]) :=
  ⟨by decide, by decide, rfl, rfl⟩

end Deploy
